import Mathlib

/-! Activation sequencer: orientation monitor and sequence validator.

A shallow embedding of `src/main.c`.  The two threads `accelThread` and
`sequenceThread` are embedded as step functions on explicit state: one step is
one iteration of the thread's `while(1)` loop.  The shared event flag object
`errorFlags` is a natural number used as a bit set.
-/

namespace ActivationSequencer

/-! ## Event flags -/

/-- The macro `#define MASK(x) (1UL << (x))`, an `unsigned long` of 32 bits. -/
def MASK (x : Nat) : Nat := (1 <<< x) % 4294967296

/-- The error code `osFlagsErrorTimeout` of CMSIS-RTOS2, `0xFFFFFFFE`. -/
def osFlagsErrorTimeout : Nat := 4294967294

/-- Modelled from the spec: `osEventFlagsSet` of the RTOS kernel, which is not
part of the sources.  Setting bits is idempotent (OR semantics). -/
def osEventFlagsSet (flags mask : Nat) : Nat := flags ||| mask

/-- The content `flags` of a flag object with the bits of `mask` cleared. -/
def clearFlags (flags mask : Nat) : Nat := flags ^^^ (flags &&& mask)

/-- The `timeout` argument of `osEventFlagsWait`: `osWaitForever` or a number of
ticks. -/
inductive Timeout where
  | osWaitForever
  | ticks (n : Nat)
  deriving DecidableEq, Repr

/-- Modelled from the spec: `osEventFlagsWait (ef, mask, osFlagsWaitAny, timeout)`
of the RTOS kernel, which is not part of the sources.  `flags` is the content of
the flag object when the call is made and `arrivals` are the bits the other
thread sets while the caller is blocked.  If one of the awaited bits is present
the call returns the flags as they were before clearing and clears exactly the
awaited bits; otherwise a bounded wait returns `osFlagsErrorTimeout` and consumes
nothing, and an unbounded wait never returns (`none`).  The result is the pair of
the returned value and the new content of the flag object. -/
def osEventFlagsWait (flags mask : Nat) (timeout : Timeout) (arrivals : Nat) :
    Option (Nat × Nat) :=
  let cur := flags ||| arrivals
  if cur &&& mask ≠ 0 then some (cur, clearFlags cur mask)
  else
    match timeout with
    | Timeout.osWaitForever => none
    | Timeout.ticks _ => some (osFlagsErrorTimeout, cur)

/-! ## Thread `t_accel` -/

/-- The orientation states `INTERMEDIATE` .. `DOWN` of `accelThread`. -/
inductive OrientationState where
  | INTERMEDIATE
  | FLAT
  | OVER
  | RIGHT
  | LEFT
  | UP
  | DOWN
  deriving DecidableEq, Repr

/-- The integer each orientation state is `#define`d as. -/
def OrientationState.code : OrientationState → Nat
  | INTERMEDIATE => 0
  | FLAT => 1
  | OVER => 2
  | RIGHT => 3
  | LEFT => 4
  | UP => 5
  | DOWN => 6

/-- The constant `#define FLAT 1`, used as a bit index of the event flags. -/
def FLAT : Nat := OrientationState.FLAT.code

/-- The constant `#define RIGHT 3`, used as a bit index of the event flags. -/
def RIGHT : Nat := OrientationState.RIGHT.code

/-- The constant `#define UP 5`, used as a bit index of the event flags. -/
def UP : Nat := OrientationState.UP.code

/-- The constant `#define CHANGE 2`, the bit index signalling a change of orientation. -/
def CHANGE : Nat := 2

/-- The normalized values `x`, `y`, `z` computed at the top of the loop body. -/
structure Sample where
  x : Int
  y : Int
  z : Int
  deriving DecidableEq, Repr

/-- The state `accelThread` works on: its local `orientationState` and the shared
event flag object `errorFlags`. -/
structure AccelState where
  orientationState : OrientationState
  errorFlags : Nat
  deriving DecidableEq, Repr

/-- The `switch (orientationState)` of `accelThread`: one classification step on
the normalized sample `v`. -/
def accelStep (st : AccelState) (v : Sample) : AccelState :=
  match st.orientationState with
  | OrientationState.INTERMEDIATE =>
    if v.z > 90 then
      { errorFlags := osEventFlagsSet st.errorFlags (MASK FLAT),
        orientationState := OrientationState.FLAT }
    else if v.z < -90 then
      { st with orientationState := OrientationState.OVER }
    else if v.y < -90 then
      { errorFlags := osEventFlagsSet st.errorFlags (MASK RIGHT),
        orientationState := OrientationState.RIGHT }
    else if v.y > 90 then
      { st with orientationState := OrientationState.LEFT }
    else if v.x < -90 then
      { errorFlags := osEventFlagsSet st.errorFlags (MASK UP),
        orientationState := OrientationState.UP }
    else if v.x > 90 then
      { st with orientationState := OrientationState.DOWN }
    else st
  | OrientationState.FLAT =>
    if v.z < 80 then
      { orientationState := OrientationState.INTERMEDIATE,
        errorFlags := osEventFlagsSet st.errorFlags (MASK CHANGE) }
    else st
  | OrientationState.OVER =>
    if v.z > -80 then
      { orientationState := OrientationState.INTERMEDIATE,
        errorFlags := osEventFlagsSet st.errorFlags (MASK CHANGE) }
    else st
  | OrientationState.RIGHT =>
    if v.y > -80 then
      { orientationState := OrientationState.INTERMEDIATE,
        errorFlags := osEventFlagsSet st.errorFlags (MASK CHANGE) }
    else st
  | OrientationState.LEFT =>
    if v.y < 80 then
      { orientationState := OrientationState.INTERMEDIATE,
        errorFlags := osEventFlagsSet st.errorFlags (MASK CHANGE) }
    else st
  | OrientationState.UP =>
    if v.x > -80 then
      { orientationState := OrientationState.INTERMEDIATE,
        errorFlags := osEventFlagsSet st.errorFlags (MASK CHANGE) }
    else st
  | OrientationState.DOWN =>
    if v.x < 80 then
      { orientationState := OrientationState.INTERMEDIATE,
        errorFlags := osEventFlagsSet st.errorFlags (MASK CHANGE) }
    else st

/-- The classification steps of `accelThread` on a finite sequence of samples. -/
def accelRun (st : AccelState) : List Sample → AccelState
  | [] => st
  | v :: vs => accelRun (accelStep st v) vs

/-- The event bits one classification step sets: the content of the flag object
after a step that starts from the empty flag object. -/
def eventsSet (s : OrientationState) (v : Sample) : Nat :=
  (accelStep { orientationState := s, errorFlags := 0 } v).errorFlags

/-- The state a classification step leads to, which does not depend on the flag
object. -/
def nextOrientation (s : OrientationState) (v : Sample) : OrientationState :=
  (accelStep { orientationState := s, errorFlags := 0 } v).orientationState

/-! ## Thread `t_sequence` -/

/-- The states `SEQUENCE_ERROR` .. `TRIGGER` of `sequenceThread`. -/
inductive SequenceState where
  | SEQUENCE_ERROR
  | TIME_ERROR
  | STEP_ON
  | STEP_FLAT
  | STEP_RIGHT
  | STEP_UP
  | TRIGGER
  deriving DecidableEq, Repr

/-- The integer each sequence state is `#define`d as. -/
def SequenceState.code : SequenceState → Nat
  | SEQUENCE_ERROR => 0
  | TIME_ERROR => 1
  | STEP_ON => 2
  | STEP_FLAT => 3
  | STEP_RIGHT => 4
  | STEP_UP => 5
  | TRIGGER => 6

/-- The shield LEDs the thread drives. -/
inductive Led where
  | LED1
  | LED2
  | LED3
  deriving DecidableEq, Repr

/-- The colours of the on-board RGB LED the thread drives. -/
inductive Colour where
  | RED
  | GREEN
  deriving DecidableEq, Repr

/-- The constant `LED_ON`. -/
def LED_ON : Bool := true

/-- The constant `LED_OFF`. -/
def LED_OFF : Bool := false

/-- The constant `RGB_ON`. -/
def RGB_ON : Bool := true

/-- A call `sequenceThread` makes to one of the output drivers (shield LEDs, RGB
LED, serial line).  The drivers are not part of the sources, so a call is
recorded, not interpreted; `sendMsg msg` stands for `sendMsg (msg, CRLF)`. -/
inductive Output where
  | ledOnOff (led : Led) (onOff : Bool)
  | setRGB (colour : Colour) (onOff : Bool)
  | sendMsg (msg : String)
  deriving DecidableEq, Repr

/-- The state `sequenceThread` works on: its local `systemState`, the shared
event flag object `errorFlags`, and the calls made to the output drivers so far,
oldest first.  The locals `flags`, `timeB` and `timeT` are written before they
are read in every iteration, so they carry nothing from one step to the next. -/
structure SeqState where
  systemState : SequenceState
  errorFlags : Nat
  outputs : List Output
  deriving DecidableEq, Repr

/-- What the surroundings supply during one iteration of the loop of
`sequenceThread`: the two readings of `osKernelGetTickCount` and the bits the
other thread sets while the iteration is blocked in its first and in its second
`osEventFlagsWait`. -/
structure StepInput where
  tickB : Nat
  arrivals1 : Nat
  tickT : Nat
  arrivals2 : Nat
  deriving DecidableEq, Repr

/-- Subtraction of `uint32_t` values, as in `osKernelGetTickCount() - timeB`. -/
def sub32 (a b : Nat) : Nat :=
  (a % 4294967296 + (4294967296 - b % 4294967296)) % 4294967296

/-- The value `timeT` an iteration computes from its two tick readings. -/
def elapsed (inp : StepInput) : Nat := sub32 inp.tickT inp.tickB

/-- A call `ledOnOff (led, onOff)`. -/
def ledOnOff (led : Led) (onOff : Bool) (st : SeqState) : SeqState :=
  { st with outputs := st.outputs ++ [Output.ledOnOff led onOff] }

/-- A call `setRGB (colour, onOff)`. -/
def setRGB (colour : Colour) (onOff : Bool) (st : SeqState) : SeqState :=
  { st with outputs := st.outputs ++ [Output.setRGB colour onOff] }

/-- A call `sendMsg (msg, CRLF)`. -/
def sendMsg (msg : String) (st : SeqState) : SeqState :=
  { st with outputs := st.outputs ++ [Output.sendMsg msg] }

/-- The `switch (systemState)` of `sequenceThread`: one iteration of its loop.
The result is `none` when the iteration blocks for ever in an unbounded wait. -/
def sequenceStep (st : SeqState) (inp : StepInput) : Option SeqState :=
  match st.systemState with
  | SequenceState.STEP_ON =>
    match osEventFlagsWait st.errorFlags (MASK FLAT) Timeout.osWaitForever inp.arrivals1 with
    | none => none
    | some (_, ef) =>
      let st := { st with errorFlags := ef }
      let st := ledOnOff Led.LED1 LED_ON st
      some { st with systemState := SequenceState.STEP_FLAT }
  | SequenceState.STEP_FLAT =>
    let timeB := inp.tickB
    match osEventFlagsWait st.errorFlags (MASK CHANGE) Timeout.osWaitForever inp.arrivals1 with
    | none => none
    | some (_, ef) =>
      let st := { st with errorFlags := ef }
      let timeT := sub32 inp.tickT timeB
      if timeT < 10000 then
        let st := ledOnOff Led.LED1 LED_OFF st
        let st := setRGB Colour.RED RGB_ON st
        let st := sendMsg "Timing error" st
        some { st with systemState := SequenceState.TIME_ERROR }
      else
        match osEventFlagsWait st.errorFlags (MASK RIGHT) (Timeout.ticks 500) inp.arrivals2 with
        | none => none
        | some (flags, ef) =>
          let st := { st with errorFlags := ef }
          if flags ≠ osFlagsErrorTimeout then
            let st := ledOnOff Led.LED2 LED_ON st
            some { st with systemState := SequenceState.STEP_RIGHT }
          else
            let st := ledOnOff Led.LED1 LED_OFF st
            let st := setRGB Colour.RED RGB_ON st
            let st := sendMsg "Sequence error" st
            some { st with systemState := SequenceState.SEQUENCE_ERROR }
  | SequenceState.STEP_RIGHT =>
    let timeB := inp.tickB
    match osEventFlagsWait st.errorFlags (MASK CHANGE) (Timeout.ticks 6000) inp.arrivals1 with
    | none => none
    | some (flags, ef) =>
      let st := { st with errorFlags := ef }
      let timeT := sub32 inp.tickT timeB
      if flags = osFlagsErrorTimeout ∨ timeT < 2000 then
        let st := ledOnOff Led.LED1 LED_OFF st
        let st := ledOnOff Led.LED2 LED_OFF st
        let st := setRGB Colour.RED RGB_ON st
        let st := sendMsg "Timing error" st
        some { st with systemState := SequenceState.TIME_ERROR }
      else if flags ≠ osFlagsErrorTimeout ∧ timeT ≥ 2000 then
        match osEventFlagsWait st.errorFlags (MASK UP) (Timeout.ticks 500) inp.arrivals2 with
        | none => none
        | some (flags, ef) =>
          let st := { st with errorFlags := ef }
          if flags ≠ osFlagsErrorTimeout then
            let st := ledOnOff Led.LED3 LED_ON st
            some { st with systemState := SequenceState.STEP_UP }
          else
            let st := ledOnOff Led.LED1 LED_OFF st
            let st := ledOnOff Led.LED2 LED_OFF st
            let st := setRGB Colour.RED RGB_ON st
            let st := sendMsg "Sequence error" st
            some { st with systemState := SequenceState.SEQUENCE_ERROR }
      else some st
  | SequenceState.STEP_UP =>
    let timeB := inp.tickB
    match osEventFlagsWait st.errorFlags (MASK CHANGE) (Timeout.ticks 8000) inp.arrivals1 with
    | none => none
    | some (flags, ef) =>
      let st := { st with errorFlags := ef }
      let timeT := sub32 inp.tickT timeB
      if flags = osFlagsErrorTimeout ∨ timeT < 4000 then
        let st := ledOnOff Led.LED1 LED_OFF st
        let st := ledOnOff Led.LED2 LED_OFF st
        let st := ledOnOff Led.LED3 LED_OFF st
        let st := setRGB Colour.RED RGB_ON st
        let st := sendMsg "Timing error" st
        some { st with systemState := SequenceState.TIME_ERROR }
      else if flags ≠ osFlagsErrorTimeout ∧ timeT ≥ 4000 then
        match osEventFlagsWait st.errorFlags (MASK FLAT) (Timeout.ticks 500) inp.arrivals2 with
        | none => none
        | some (flags, ef) =>
          let st := { st with errorFlags := ef }
          if flags ≠ osFlagsErrorTimeout then
            let st := ledOnOff Led.LED1 LED_OFF st
            let st := ledOnOff Led.LED2 LED_OFF st
            let st := ledOnOff Led.LED3 LED_OFF st
            let st := setRGB Colour.GREEN RGB_ON st
            some { st with systemState := SequenceState.TRIGGER }
          else
            let st := ledOnOff Led.LED1 LED_OFF st
            let st := ledOnOff Led.LED2 LED_OFF st
            let st := ledOnOff Led.LED3 LED_OFF st
            let st := setRGB Colour.RED RGB_ON st
            let st := sendMsg "Sequence error" st
            some { st with systemState := SequenceState.SEQUENCE_ERROR }
      else some st
  | SequenceState.TRIGGER => some st
  | SequenceState.TIME_ERROR => some st
  | SequenceState.SEQUENCE_ERROR => some st

/-- The iterations of the loop of `sequenceThread` on a finite sequence of
inputs, one per iteration; `none` when one of them blocks for ever. -/
def sequenceRun (st : SeqState) : List StepInput → Option SeqState
  | [] => some st
  | inp :: inps =>
    match sequenceStep st inp with
    | none => none
    | some st1 => sequenceRun st1 inps

/-- The state `sequenceThread` starts in, over a given flag object. -/
def sequenceInit (flags : Nat) : SeqState :=
  { systemState := SequenceState.STEP_ON, errorFlags := flags, outputs := [] }

/-- The sequence state one iteration leads to; `none` when it blocks for ever. -/
def nextState (st : SeqState) (inp : StepInput) : Option SequenceState :=
  (sequenceStep st inp).map (fun st1 => st1.systemState)

/-- The terminal states of `sequenceThread`, in which "nothing happens". -/
def isTerminal : SequenceState → Bool
  | SequenceState.TRIGGER => true
  | SequenceState.TIME_ERROR => true
  | SequenceState.SEQUENCE_ERROR => true
  | _ => false

/-- The content of a flag object is well formed when it fits in 31 bits: the
kernel reserves bit 31 of a flags value for its error codes. -/
def FlagsOk (flags : Nat) : Prop := flags < 2147483648

instance (flags : Nat) : Decidable (FlagsOk flags) := by
  unfold FlagsOk; infer_instance

/-! ## Notions the specification uses -/

/-- The entry tests of the specification in their fixed order, each with the
state it leads to: z high, z low, y low, y high, x low, x high, against the
entry threshold 90 (exclusive). -/
def entryTests : List ((Sample → Bool) × OrientationState) :=
  [ (fun v => decide (v.z > 90), OrientationState.FLAT),
    (fun v => decide (v.z < -90), OrientationState.OVER),
    (fun v => decide (v.y < -90), OrientationState.RIGHT),
    (fun v => decide (v.y > 90), OrientationState.LEFT),
    (fun v => decide (v.x < -90), OrientationState.UP),
    (fun v => decide (v.x > 90), OrientationState.DOWN) ]

/-- The state chosen by the first satisfied entry test of the specification, and
`INTERMEDIATE` when none is satisfied. -/
def firstSatisfied (v : Sample) : OrientationState :=
  match entryTests.find? (fun t => t.1 v) with
  | some t => t.2
  | none => OrientationState.INTERMEDIATE

/-- The hysteresis condition of the specification: the governing axis of the
state is at or beyond the exit threshold 80 in the entry direction.  No axis
governs `INTERMEDIATE`. -/
def holdsAxis (s : OrientationState) (v : Sample) : Bool :=
  match s with
  | OrientationState.INTERMEDIATE => false
  | OrientationState.FLAT => decide (v.z ≥ 80)
  | OrientationState.OVER => decide (v.z ≤ -80)
  | OrientationState.RIGHT => decide (v.y ≤ -80)
  | OrientationState.LEFT => decide (v.y ≥ 80)
  | OrientationState.UP => decide (v.x ≤ -80)
  | OrientationState.DOWN => decide (v.x ≥ 80)

/-- The governing axis of a state: the axis its exit test reads.  No axis
governs `INTERMEDIATE` (the value is 0 there). -/
def governingAxis (s : OrientationState) (v : Sample) : Int :=
  match s with
  | OrientationState.INTERMEDIATE => 0
  | OrientationState.FLAT => v.z
  | OrientationState.OVER => v.z
  | OrientationState.RIGHT => v.y
  | OrientationState.LEFT => v.y
  | OrientationState.UP => v.x
  | OrientationState.DOWN => v.x

/-- The exit condition of the specification: the governing axis has receded
strictly past the exit threshold 80, towards intermediate. -/
def receded (s : OrientationState) (v : Sample) : Bool :=
  match s with
  | OrientationState.INTERMEDIATE => false
  | OrientationState.FLAT => decide (v.z < 80)
  | OrientationState.OVER => decide (v.z > -80)
  | OrientationState.RIGHT => decide (v.y > -80)
  | OrientationState.LEFT => decide (v.y < 80)
  | OrientationState.UP => decide (v.x > -80)
  | OrientationState.DOWN => decide (v.x < 80)

/-- The number of the event bits `FLAT`, `RIGHT`, `UP`, `CHANGE` that are set in
a flags value. -/
def countEventBits (flags : Nat) : Nat :=
  ([FLAT, RIGHT, UP, CHANGE].filter (fun b => flags.testBit b)).length

/-- The four event bits together. -/
def eventBits : Nat := MASK FLAT ||| MASK RIGHT ||| MASK UP ||| MASK CHANGE

/-- A flags value holds event bits only. -/
def OnlyEventBits (flags : Nat) : Prop := flags &&& eventBits = flags

instance (flags : Nat) : Decidable (OnlyEventBits flags) := by
  unfold OnlyEventBits; infer_instance

/-! ## The sampling cycle of `t_accel` -/

/-- Conversion of an `int` to `int16_t`, by wraparound. -/
def toInt16 (n : Int) : Int := (n + 32768) % 65536 - 32768

/-- The conversion `(xyz[i] * 100) / 4096` stored in an `int16_t`: the reading is
an `int16_t`, so the product is computed in `int` without overflow, and the
division of C truncates toward zero. -/
def normalizeAxis (r : Int) : Int := toInt16 (Int.tdiv (r * 100) 4096)

/-- The array `xyz` filled by `readXYZ`. -/
structure RawSample where
  xyz0 : Int
  xyz1 : Int
  xyz2 : Int
  deriving DecidableEq, Repr

/-- The values `x`, `y`, `z` computed from the raw readings. -/
def normalizeSample (xyz : RawSample) : Sample :=
  { x := normalizeAxis xyz.xyz0, y := normalizeAxis xyz.xyz1, z := normalizeAxis xyz.xyz2 }

/-- One iteration of the loop of `accelThread` after `osDelay (20)` and
`readXYZ (xyz)` have returned the readings `xyz`: the new state, and the calls the
body makes to the output drivers (shield LEDs, RGB LED, serial line).  The body
makes no such call: after `readXYZ` it only computes `x`, `y`, `z` and runs the
`switch`, whose only calls are `osEventFlagsSet`. -/
def accelCycle (st : AccelState) (xyz : RawSample) : AccelState × List Output :=
  (accelStep st (normalizeSample xyz), [])

/-! ## Indicators and diagnostics -/

/-- The lines written to the serial line among a list of driver calls. -/
def diagnosticLines : List Output → List String
  | [] => []
  | Output.sendMsg msg :: rest => msg :: diagnosticLines rest
  | _ :: rest => diagnosticLines rest

/-- The state of the indicators: the three shield LEDs and the red and green
colours of the RGB LED. -/
structure Indicators where
  led1 : Bool
  led2 : Bool
  led3 : Bool
  red : Bool
  green : Bool
  deriving DecidableEq, Repr

/-- All indicators off. -/
def allOff : Indicators :=
  { led1 := false, led2 := false, led3 := false, red := false, green := false }

/-- Modelled from the spec: the effect of the indicator drivers `ledOnOff` and
`setRGB`, which are not part of the sources: `setIndicator (id, on/off)` switches
that step indicator and `setColor (color, on/off)` switches that colour of the
status indicator, leaving the others as they are; writing a line does not touch
the indicators. -/
def applyOutput (ind : Indicators) : Output → Indicators
  | Output.ledOnOff Led.LED1 b => { ind with led1 := b }
  | Output.ledOnOff Led.LED2 b => { ind with led2 := b }
  | Output.ledOnOff Led.LED3 b => { ind with led3 := b }
  | Output.setRGB Colour.RED b => { ind with red := b }
  | Output.setRGB Colour.GREEN b => { ind with green := b }
  | Output.sendMsg _ => ind

/-- The indicators after a list of driver calls, oldest first, from `ind`. -/
def indicatorsFrom (ind : Indicators) (outs : List Output) : Indicators :=
  outs.foldl applyOutput ind

/-- The indicators the specification associates with each sequence state. -/
def expectedIndicators : SequenceState → Indicators
  | SequenceState.STEP_ON => allOff
  | SequenceState.STEP_FLAT => { allOff with led1 := true }
  | SequenceState.STEP_RIGHT => { allOff with led1 := true, led2 := true }
  | SequenceState.STEP_UP => { allOff with led1 := true, led2 := true, led3 := true }
  | SequenceState.TRIGGER => { allOff with green := true }
  | SequenceState.TIME_ERROR => { allOff with red := true }
  | SequenceState.SEQUENCE_ERROR => { allOff with red := true }

/-! ## Progress of the validator -/

/-- The order of the specification on sequence states: `STEP_ON`, `STEP_FLAT`,
`STEP_RIGHT`, `STEP_UP`, then the three terminal states together. -/
def rank : SequenceState → Nat
  | SequenceState.STEP_ON => 0
  | SequenceState.STEP_FLAT => 1
  | SequenceState.STEP_RIGHT => 2
  | SequenceState.STEP_UP => 3
  | SequenceState.TRIGGER => 4
  | SequenceState.TIME_ERROR => 4
  | SequenceState.SEQUENCE_ERROR => 4

/-- The sequence states a run goes through, the first one included; the list
stops where an iteration blocks for ever. -/
def sequenceTrace (st : SeqState) : List StepInput → List SequenceState
  | [] => [st.systemState]
  | inp :: inps =>
    match sequenceStep st inp with
    | none => [st.systemState]
    | some st1 => st.systemState :: sequenceTrace st1 inps

/-- The number of places in a list of states where the state changes. -/
def countChanges : List SequenceState → Nat
  | a :: b :: rest => (if a = b then 0 else 1) + countChanges (b :: rest)
  | _ => 0

/-- The ways an iteration of `sequenceThread` can end, read off the branches of
its `switch`: for each state the possible next states, each with the calls to
the output drivers made on the way. -/
def outcomes : SequenceState → List (SequenceState × List Output)
  | SequenceState.STEP_ON =>
    [(SequenceState.STEP_FLAT, [Output.ledOnOff Led.LED1 true])]
  | SequenceState.STEP_FLAT =>
    [(SequenceState.TIME_ERROR,
        [Output.ledOnOff Led.LED1 false, Output.setRGB Colour.RED true,
          Output.sendMsg "Timing error"]),
     (SequenceState.STEP_RIGHT, [Output.ledOnOff Led.LED2 true]),
     (SequenceState.SEQUENCE_ERROR,
        [Output.ledOnOff Led.LED1 false, Output.setRGB Colour.RED true,
          Output.sendMsg "Sequence error"])]
  | SequenceState.STEP_RIGHT =>
    [(SequenceState.TIME_ERROR,
        [Output.ledOnOff Led.LED1 false, Output.ledOnOff Led.LED2 false,
          Output.setRGB Colour.RED true, Output.sendMsg "Timing error"]),
     (SequenceState.STEP_UP, [Output.ledOnOff Led.LED3 true]),
     (SequenceState.SEQUENCE_ERROR,
        [Output.ledOnOff Led.LED1 false, Output.ledOnOff Led.LED2 false,
          Output.setRGB Colour.RED true, Output.sendMsg "Sequence error"])]
  | SequenceState.STEP_UP =>
    [(SequenceState.TIME_ERROR,
        [Output.ledOnOff Led.LED1 false, Output.ledOnOff Led.LED2 false,
          Output.ledOnOff Led.LED3 false, Output.setRGB Colour.RED true,
          Output.sendMsg "Timing error"]),
     (SequenceState.TRIGGER,
        [Output.ledOnOff Led.LED1 false, Output.ledOnOff Led.LED2 false,
          Output.ledOnOff Led.LED3 false, Output.setRGB Colour.GREEN true]),
     (SequenceState.SEQUENCE_ERROR,
        [Output.ledOnOff Led.LED1 false, Output.ledOnOff Led.LED2 false,
          Output.ledOnOff Led.LED3 false, Output.setRGB Colour.RED true,
          Output.sendMsg "Sequence error"])]
  | SequenceState.TRIGGER => [(SequenceState.TRIGGER, [])]
  | SequenceState.TIME_ERROR => [(SequenceState.TIME_ERROR, [])]
  | SequenceState.SEQUENCE_ERROR => [(SequenceState.SEQUENCE_ERROR, [])]

/-! ## The two threads together -/

/-- The state of the two threads together: the orientation state of the monitor
and the state of the validator, whose field `errorFlags` is the flag object the
two threads share. -/
structure System where
  orientationState : OrientationState
  seq : SeqState
  deriving DecidableEq, Repr

/-- What happens next in the system: the monitor runs one classification step on
a sample, or the validator runs one iteration of its loop on an input (whose
arrivals are the bits set while the iteration is blocked). -/
inductive Action where
  | sample (v : Sample)
  | iterate (inp : StepInput)
  deriving DecidableEq, Repr

/-- One action of the system.  The classification step works on the shared flag
object; an iteration of the validator that blocks for ever leaves the system as
it is. -/
def sysStep (s : System) : Action → System
  | Action.sample v =>
    let a := accelStep { orientationState := s.orientationState,
                         errorFlags := s.seq.errorFlags } v
    { orientationState := a.orientationState,
      seq := { s.seq with errorFlags := a.errorFlags } }
  | Action.iterate inp =>
    match sequenceStep s.seq inp with
    | none => s
    | some seq1 => { s with seq := seq1 }

/-- A finite sequence of actions of the system, in any order. -/
def sysRun (s : System) : List Action → System
  | [] => s
  | a :: as => sysRun (sysStep s a) as

/-- The system at start: `INTERMEDIATE`, `STEP_ON`, no flag set, no output. -/
def sysInit : System :=
  { orientationState := OrientationState.INTERMEDIATE, seq := sequenceInit 0 }

/-- The arrivals of an action hold event bits only, as do all bits the monitor
sets. -/
def ActionOk : Action → Prop
  | Action.sample _ => True
  | Action.iterate inp => OnlyEventBits inp.arrivals1 ∧ OnlyEventBits inp.arrivals2

instance (a : Action) : Decidable (ActionOk a) := by
  cases a <;> unfold ActionOk <;> infer_instance

end ActivationSequencer

namespace ActivationSequencer

/-! ## Lemmas on the event bits -/

theorem MASK_FLAT_eq : MASK FLAT = 2 := by decide

theorem MASK_CHANGE_eq : MASK CHANGE = 4 := by decide

theorem MASK_RIGHT_eq : MASK RIGHT = 8 := by decide

theorem MASK_UP_eq : MASK UP = 32 := by decide

/-- The flag object after a classification step is the one before it with the
bits of `eventsSet` added, and the new orientation is `nextOrientation`. -/
theorem accelStep_eq (st : AccelState) (v : Sample) :
    accelStep st v =
      { orientationState := nextOrientation st.orientationState v,
        errorFlags := st.errorFlags ||| eventsSet st.orientationState v } := by
  obtain ⟨s, f⟩ := st
  cases s <;> simp only [accelStep, eventsSet, nextOrientation, osEventFlagsSet] <;>
    split_ifs <;> simp

/-! ## The orientation monitor -/

/-- C1: from `INTERMEDIATE`, a sample with `z > 90` leads to `FLAT` whatever `x`
and `y` are; the step adds exactly the bit `MASK FLAT` to the flag object, so
the `FLAT` bit is set and the `RIGHT`, `UP` and `CHANGE` bits (and every other
bit) are left as they were. -/
theorem flat_entry_sets_only_flat (x y z : Int) (f : Nat) (hz : z > 90) :
    accelStep { orientationState := OrientationState.INTERMEDIATE, errorFlags := f }
        { x := x, y := y, z := z }
      = { orientationState := OrientationState.FLAT, errorFlags := f ||| MASK FLAT } ∧
    eventsSet OrientationState.INTERMEDIATE { x := x, y := y, z := z } = MASK FLAT ∧
    (MASK FLAT).testBit FLAT = true ∧
    (MASK FLAT).testBit RIGHT = false ∧
    (MASK FLAT).testBit UP = false ∧
    (MASK FLAT).testBit CHANGE = false ∧
    ∀ b, b ≠ FLAT → (f ||| MASK FLAT).testBit b = f.testBit b := by
  refine ⟨?_, ?_, by decide, by decide, by decide, by decide, ?_⟩
  · simp [accelStep, hz, osEventFlagsSet]
  · simp [eventsSet, accelStep, hz, osEventFlagsSet]
  · intro b hb
    rw [Nat.testBit_or, MASK_FLAT_eq]
    have h2 : Nat.testBit 2 b = false := by
      have : (2 : Nat) = 2 ^ 1 := rfl
      rw [this, Nat.testBit_two_pow]
      simpa [FLAT, OrientationState.code, eq_comm] using hb
    simp [h2]

theorem flat_entry_sets_only_flat_witness :
    (91 : Int) > 90 ∧
    accelStep { orientationState := OrientationState.INTERMEDIATE, errorFlags := 8 }
        { x := -100, y := -100, z := 91 }
      = { orientationState := OrientationState.FLAT, errorFlags := 10 } :=
  ⟨by decide, (flat_entry_sets_only_flat (-100) (-100) 91 8 (by decide)).1⟩

/-- The orientation a step from `INTERMEDIATE` leads to, as a chain of tests. -/
theorem nextOrientation_intermediate (v : Sample) :
    nextOrientation OrientationState.INTERMEDIATE v =
      if v.z > 90 then OrientationState.FLAT
      else if v.z < -90 then OrientationState.OVER
      else if v.y < -90 then OrientationState.RIGHT
      else if v.y > 90 then OrientationState.LEFT
      else if v.x < -90 then OrientationState.UP
      else if v.x > 90 then OrientationState.DOWN
      else OrientationState.INTERMEDIATE := by
  simp only [nextOrientation, accelStep]
  split_ifs <;> rfl

/-- C2: from `INTERMEDIATE` the step leads to the state of the first satisfied
test in the order z > 90, z < -90, y < -90, y > 90, x < -90, x > 90, whatever
the flag object holds; it stays `INTERMEDIATE` exactly when no test is
satisfied, that is when all three axes lie in [-90, 90] (the thresholds are
exclusive); and z decides over y, y over x. -/
theorem intermediate_first_test_wins (v : Sample) (f : Nat) :
    (accelStep { orientationState := OrientationState.INTERMEDIATE, errorFlags := f } v).orientationState
      = firstSatisfied v ∧
    (firstSatisfied v = OrientationState.INTERMEDIATE ↔
      (-90 ≤ v.z ∧ v.z ≤ 90) ∧ (-90 ≤ v.y ∧ v.y ≤ 90) ∧ (-90 ≤ v.x ∧ v.x ≤ 90)) ∧
    (v.z > 90 → firstSatisfied v = OrientationState.FLAT) ∧
    (v.z < -90 → firstSatisfied v = OrientationState.OVER) ∧
    (-90 ≤ v.z ∧ v.z ≤ 90 → v.y < -90 → firstSatisfied v = OrientationState.RIGHT) ∧
    (-90 ≤ v.z ∧ v.z ≤ 90 → v.y > 90 → firstSatisfied v = OrientationState.LEFT) ∧
    (-90 ≤ v.z ∧ v.z ≤ 90 → -90 ≤ v.y ∧ v.y ≤ 90 → v.x < -90 →
      firstSatisfied v = OrientationState.UP) ∧
    (-90 ≤ v.z ∧ v.z ≤ 90 → -90 ≤ v.y ∧ v.y ≤ 90 → v.x > 90 →
      firstSatisfied v = OrientationState.DOWN) := by
  have hfirst : firstSatisfied v = nextOrientation OrientationState.INTERMEDIATE v := by
    rw [nextOrientation_intermediate]
    split_ifs <;> simp [firstSatisfied, entryTests, List.find?, *]
  refine ⟨?_, ?_, ?_, ?_, ?_, ?_, ?_, ?_⟩
  · rw [accelStep_eq, hfirst]
  · rw [hfirst, nextOrientation_intermediate]
    split_ifs <;> simp only [reduceCtorEq, false_iff, true_iff] <;> omega
  all_goals
    rw [hfirst, nextOrientation_intermediate]
    intros
    split_ifs <;> first | rfl | omega

/-- Under the hysteresis condition one step from a non-intermediate state changes
nothing. -/
theorem accelStep_holdsAxis (s : OrientationState) (f : Nat) (v : Sample)
    (h : holdsAxis s v = true) :
    accelStep { orientationState := s, errorFlags := f } v
      = { orientationState := s, errorFlags := f } := by
  cases s <;> simp [holdsAxis] at h <;> simp only [accelStep] <;> split_ifs <;>
    first | rfl | omega

/-- Under the hysteresis condition on every sample a run from a non-intermediate
state changes nothing. -/
theorem accelRun_holdsAxis (s : OrientationState) (f : Nat) (vs : List Sample)
    (h : ∀ v ∈ vs, holdsAxis s v = true) :
    accelRun { orientationState := s, errorFlags := f } vs
      = { orientationState := s, errorFlags := f } := by
  induction vs with
  | nil => rfl
  | cons v vs ih =>
    rw [accelRun, accelStep_holdsAxis s f v (h v (List.mem_cons_self v vs))]
    exact ih (fun w hw => h w (List.mem_cons_of_mem v hw))

/-- C3: hysteresis.  Started in a non-intermediate state `s` with any flag object
`f`, on a sequence of samples whose governing axis stays at or beyond the exit
threshold 80 in the entry direction, the monitor is in `s` with the flag object
still `f` after every sample of the sequence (after each of its first `n`
samples, for every `n`): no return to `INTERMEDIATE` and no event bit set. -/
theorem hysteresis_no_chatter (s : OrientationState) (f : Nat) (vs : List Sample)
    (hs : s ≠ OrientationState.INTERMEDIATE)
    (h : ∀ v ∈ vs, holdsAxis s v = true) (n : Nat) :
    accelRun { orientationState := s, errorFlags := f } (vs.take n)
      = { orientationState := s, errorFlags := f } ∧
    (∀ v ∈ vs, eventsSet s v = 0) := by
  have _ := hs
  refine ⟨accelRun_holdsAxis s f (vs.take n) (fun v hv => h v (List.mem_of_mem_take hv)), ?_⟩
  intro v hv
  simp [eventsSet, accelStep_holdsAxis s 0 v (h v hv)]

theorem hysteresis_no_chatter_witness :
    OrientationState.FLAT ≠ OrientationState.INTERMEDIATE ∧
    (∀ v ∈ [({ x := 0, y := 0, z := 85 } : Sample), { x := 100, y := -100, z := 80 }],
      holdsAxis OrientationState.FLAT v = true) ∧
    accelRun { orientationState := OrientationState.FLAT, errorFlags := 0 }
        [({ x := 0, y := 0, z := 85 } : Sample), { x := 100, y := -100, z := 80 }]
      = { orientationState := OrientationState.FLAT, errorFlags := 0 } :=
  ⟨by decide, by decide,
    (hysteresis_no_chatter OrientationState.FLAT 0
      [{ x := 0, y := 0, z := 85 }, { x := 100, y := -100, z := 80 }]
      (by decide) (by decide) 2).1⟩

/-- C4: for every state of the monitor and every sample, the classification step
sets the `CHANGE` bit if and only if the state before the step is not
`INTERMEDIATE` and the state after it is `INTERMEDIATE`; the bits the step sets
are those of `eventsSet`, added to the flag object. -/
theorem change_iff_back_to_intermediate (st : AccelState) (v : Sample) :
    (accelStep st v).errorFlags = st.errorFlags ||| eventsSet st.orientationState v ∧
    ((eventsSet st.orientationState v).testBit CHANGE = true ↔
      (st.orientationState ≠ OrientationState.INTERMEDIATE ∧
        (accelStep st v).orientationState = OrientationState.INTERMEDIATE)) := by
  refine ⟨by rw [accelStep_eq], ?_⟩
  rw [accelStep_eq]
  obtain ⟨s, f⟩ := st
  cases s <;> simp only [eventsSet, nextOrientation, accelStep, osEventFlagsSet,
      MASK_FLAT_eq, MASK_RIGHT_eq, MASK_UP_eq, MASK_CHANGE_eq] <;>
    split_ifs <;> simp [CHANGE] <;> decide

/-! ## Lemmas on waiting for event bits -/

theorem MASK_eq_two_pow (k : Nat) (hk : k < 32) : MASK k = 2 ^ k := by
  unfold MASK
  rw [Nat.one_shiftLeft]
  exact Nat.mod_eq_of_lt (Nat.pow_lt_pow_right (by norm_num) hk)

theorem and_MASK_ne_zero (x k : Nat) (hk : k < 32) :
    x &&& MASK k ≠ 0 ↔ x.testBit k = true := by
  rw [MASK_eq_two_pow k hk, Nat.and_two_pow]
  cases h : x.testBit k <;> simp

theorem testBit_clearFlags (x k j : Nat) (hk : k < 32) :
    (clearFlags x (MASK k)).testBit j = (x.testBit j && decide (j ≠ k)) := by
  unfold clearFlags
  rw [Nat.testBit_xor, Nat.testBit_and, MASK_eq_two_pow k hk, Nat.testBit_two_pow]
  by_cases hjk : k = j
  · subst hjk; cases x.testBit k <;> simp
  · have hjk2 : j ≠ k := fun h => hjk h.symm
    cases x.testBit j <;> simp [hjk, hjk2]

theorem FlagsOk_or {a b : Nat} (ha : FlagsOk a) (hb : FlagsOk b) : FlagsOk (a ||| b) := by
  unfold FlagsOk at *
  exact Nat.or_lt_two_pow (n := 31) ha hb

theorem FlagsOk_clearFlags {a : Nat} (m : Nat) (ha : FlagsOk a) : FlagsOk (clearFlags a m) := by
  unfold FlagsOk clearFlags at *
  have h1 : a &&& m < 2 ^ 31 := by
    rw [Nat.and_comm]; exact Nat.and_lt_two_pow m (n := 31) ha
  exact Nat.xor_lt_two_pow (n := 31) ha h1

theorem FlagsOk_ne_timeout {a : Nat} (ha : FlagsOk a) : a ≠ osFlagsErrorTimeout := by
  unfold FlagsOk osFlagsErrorTimeout at *
  omega

/-- A wait on bit `k` that finds the bit returns the flags and clears the bit. -/
theorem wait_received (flags k arr : Nat) (t : Timeout) (hk : k < 32)
    (h : (flags ||| arr).testBit k = true) :
    osEventFlagsWait flags (MASK k) t arr
      = some (flags ||| arr, clearFlags (flags ||| arr) (MASK k)) := by
  have h1 := (and_MASK_ne_zero (flags ||| arr) k hk).2 h
  simp only [osEventFlagsWait, h1, ne_eq, not_false_eq_true, if_true]

/-- A bounded wait on bit `k` that does not find the bit times out and leaves the
flags as they are. -/
theorem wait_timeout (flags k arr n : Nat) (hk : k < 32)
    (h : (flags ||| arr).testBit k = false) :
    osEventFlagsWait flags (MASK k) (Timeout.ticks n) arr
      = some (osFlagsErrorTimeout, flags ||| arr) := by
  have h1 : ¬ ((flags ||| arr) &&& MASK k ≠ 0) := by
    rw [and_MASK_ne_zero (flags ||| arr) k hk, h]; simp
  simp only [osEventFlagsWait, h1, if_false]

/-- An unbounded wait on bit `k` that does not find the bit never returns. -/
theorem wait_forever (flags k arr : Nat) (hk : k < 32)
    (h : (flags ||| arr).testBit k = false) :
    osEventFlagsWait flags (MASK k) Timeout.osWaitForever arr = none := by
  have h1 : ¬ ((flags ||| arr) &&& MASK k ≠ 0) := by
    rw [and_MASK_ne_zero (flags ||| arr) k hk, h]; simp
  simp only [osEventFlagsWait, h1, if_false]

/-! ## The steps of the sequence validator -/

/-- The grace wait sees a bit `k` other than `CHANGE` exactly when the bit was
pending or arrived during one of the two waits of the step. -/
theorem testBit_grace (f a1 a2 k : Nat) (hk : k ≠ CHANGE) :
    (clearFlags (f ||| a1) (MASK CHANGE) ||| a2).testBit k = (f ||| a1 ||| a2).testBit k := by
  rw [Nat.testBit_or, testBit_clearFlags _ CHANGE k (by decide), Nat.testBit_or (f ||| a1)]
  simp [hk]

theorem step_on_received (st : SeqState) (inp : StepInput)
    (hs : st.systemState = SequenceState.STEP_ON)
    (h : (st.errorFlags ||| inp.arrivals1).testBit FLAT = true) :
    sequenceStep st inp = some
      { systemState := SequenceState.STEP_FLAT,
        errorFlags := clearFlags (st.errorFlags ||| inp.arrivals1) (MASK FLAT),
        outputs := st.outputs ++ [Output.ledOnOff Led.LED1 true] } := by
  simp only [sequenceStep, hs, wait_received _ FLAT _ _ (by decide) h, ledOnOff, LED_ON]

theorem step_flat_early (st : SeqState) (inp : StepInput)
    (hs : st.systemState = SequenceState.STEP_FLAT)
    (h : (st.errorFlags ||| inp.arrivals1).testBit CHANGE = true)
    (he : elapsed inp < 10000) :
    sequenceStep st inp = some
      { systemState := SequenceState.TIME_ERROR,
        errorFlags := clearFlags (st.errorFlags ||| inp.arrivals1) (MASK CHANGE),
        outputs := st.outputs ++ [Output.ledOnOff Led.LED1 false,
          Output.setRGB Colour.RED true, Output.sendMsg "Timing error"] } := by
  unfold elapsed at he
  simp [sequenceStep, hs, wait_received _ CHANGE _ _ (by decide) h, ledOnOff, setRGB,
    sendMsg, LED_OFF, RGB_ON, he]

theorem step_flat_right (st : SeqState) (inp : StepInput)
    (hs : st.systemState = SequenceState.STEP_FLAT)
    (hf : FlagsOk st.errorFlags) (h1 : FlagsOk inp.arrivals1) (h2 : FlagsOk inp.arrivals2)
    (h : (st.errorFlags ||| inp.arrivals1).testBit CHANGE = true)
    (he : 10000 ≤ elapsed inp)
    (hr : (st.errorFlags ||| inp.arrivals1 ||| inp.arrivals2).testBit RIGHT = true) :
    sequenceStep st inp = some
      { systemState := SequenceState.STEP_RIGHT,
        errorFlags := clearFlags
          (clearFlags (st.errorFlags ||| inp.arrivals1) (MASK CHANGE) ||| inp.arrivals2)
          (MASK RIGHT),
        outputs := st.outputs ++ [Output.ledOnOff Led.LED2 true] } := by
  unfold elapsed at he
  rw [← testBit_grace _ _ _ RIGHT (by decide)] at hr
  have hok := FlagsOk_ne_timeout
    (FlagsOk_or (FlagsOk_clearFlags (MASK CHANGE) (FlagsOk_or hf h1)) h2)
  simp [sequenceStep, hs, wait_received _ CHANGE _ _ (by decide) h,
    wait_received _ RIGHT _ _ (by decide) hr, ledOnOff, LED_ON, Nat.not_lt.2 he, hok]

theorem step_flat_wrong (st : SeqState) (inp : StepInput)
    (hs : st.systemState = SequenceState.STEP_FLAT)
    (h : (st.errorFlags ||| inp.arrivals1).testBit CHANGE = true)
    (he : 10000 ≤ elapsed inp)
    (hr : (st.errorFlags ||| inp.arrivals1 ||| inp.arrivals2).testBit RIGHT = false) :
    sequenceStep st inp = some
      { systemState := SequenceState.SEQUENCE_ERROR,
        errorFlags := clearFlags (st.errorFlags ||| inp.arrivals1) (MASK CHANGE) ||| inp.arrivals2,
        outputs := st.outputs ++ [Output.ledOnOff Led.LED1 false,
          Output.setRGB Colour.RED true, Output.sendMsg "Sequence error"] } := by
  unfold elapsed at he
  rw [← testBit_grace _ _ _ RIGHT (by decide)] at hr
  simp [sequenceStep, hs, wait_received _ CHANGE _ _ (by decide) h,
    wait_timeout _ RIGHT _ 500 (by decide) hr, ledOnOff, setRGB, sendMsg, LED_OFF, RGB_ON,
    Nat.not_lt.2 he]

theorem step_right_timeout (st : SeqState) (inp : StepInput)
    (hs : st.systemState = SequenceState.STEP_RIGHT)
    (h : (st.errorFlags ||| inp.arrivals1).testBit CHANGE = false) :
    sequenceStep st inp = some
      { systemState := SequenceState.TIME_ERROR,
        errorFlags := st.errorFlags ||| inp.arrivals1,
        outputs := st.outputs ++ [Output.ledOnOff Led.LED1 false, Output.ledOnOff Led.LED2 false,
          Output.setRGB Colour.RED true, Output.sendMsg "Timing error"] } := by
  simp [sequenceStep, hs, wait_timeout _ CHANGE _ 6000 (by decide) h, ledOnOff, setRGB,
    sendMsg, LED_OFF, RGB_ON]

theorem step_right_early (st : SeqState) (inp : StepInput)
    (hs : st.systemState = SequenceState.STEP_RIGHT)
    (h : (st.errorFlags ||| inp.arrivals1).testBit CHANGE = true)
    (he : elapsed inp < 2000) :
    sequenceStep st inp = some
      { systemState := SequenceState.TIME_ERROR,
        errorFlags := clearFlags (st.errorFlags ||| inp.arrivals1) (MASK CHANGE),
        outputs := st.outputs ++ [Output.ledOnOff Led.LED1 false, Output.ledOnOff Led.LED2 false,
          Output.setRGB Colour.RED true, Output.sendMsg "Timing error"] } := by
  unfold elapsed at he
  simp [sequenceStep, hs, wait_received _ CHANGE _ _ (by decide) h, ledOnOff, setRGB,
    sendMsg, LED_OFF, RGB_ON, he]

theorem step_right_next (st : SeqState) (inp : StepInput)
    (hs : st.systemState = SequenceState.STEP_RIGHT)
    (hf : FlagsOk st.errorFlags) (h1 : FlagsOk inp.arrivals1) (h2 : FlagsOk inp.arrivals2)
    (h : (st.errorFlags ||| inp.arrivals1).testBit CHANGE = true)
    (he : 2000 ≤ elapsed inp)
    (hr : (st.errorFlags ||| inp.arrivals1 ||| inp.arrivals2).testBit UP = true) :
    sequenceStep st inp = some
      { systemState := SequenceState.STEP_UP,
        errorFlags := clearFlags
          (clearFlags (st.errorFlags ||| inp.arrivals1) (MASK CHANGE) ||| inp.arrivals2)
          (MASK UP),
        outputs := st.outputs ++ [Output.ledOnOff Led.LED3 true] } := by
  unfold elapsed at he
  rw [← testBit_grace _ _ _ UP (by decide)] at hr
  have hok1 := FlagsOk_ne_timeout (FlagsOk_or hf h1)
  have hok2 := FlagsOk_ne_timeout
    (FlagsOk_or (FlagsOk_clearFlags (MASK CHANGE) (FlagsOk_or hf h1)) h2)
  simp [sequenceStep, hs, wait_received _ CHANGE _ _ (by decide) h,
    wait_received _ UP _ _ (by decide) hr, ledOnOff, setRGB, LED_ON, LED_OFF, RGB_ON,
    Nat.not_lt.2 he, he, hok1, hok2]

theorem step_right_wrong (st : SeqState) (inp : StepInput)
    (hs : st.systemState = SequenceState.STEP_RIGHT)
    (hf : FlagsOk st.errorFlags) (h1 : FlagsOk inp.arrivals1)
    (h : (st.errorFlags ||| inp.arrivals1).testBit CHANGE = true)
    (he : 2000 ≤ elapsed inp)
    (hr : (st.errorFlags ||| inp.arrivals1 ||| inp.arrivals2).testBit UP = false) :
    sequenceStep st inp = some
      { systemState := SequenceState.SEQUENCE_ERROR,
        errorFlags := clearFlags (st.errorFlags ||| inp.arrivals1) (MASK CHANGE) ||| inp.arrivals2,
        outputs := st.outputs ++ [Output.ledOnOff Led.LED1 false, Output.ledOnOff Led.LED2 false,
          Output.setRGB Colour.RED true, Output.sendMsg "Sequence error"] } := by
  unfold elapsed at he
  rw [← testBit_grace _ _ _ UP (by decide)] at hr
  have hok1 := FlagsOk_ne_timeout (FlagsOk_or hf h1)
  simp [sequenceStep, hs, wait_received _ CHANGE _ _ (by decide) h,
    wait_timeout _ UP _ 500 (by decide) hr, ledOnOff, setRGB, sendMsg, LED_OFF, RGB_ON,
    Nat.not_lt.2 he, he, hok1]

theorem step_up_timeout (st : SeqState) (inp : StepInput)
    (hs : st.systemState = SequenceState.STEP_UP)
    (h : (st.errorFlags ||| inp.arrivals1).testBit CHANGE = false) :
    sequenceStep st inp = some
      { systemState := SequenceState.TIME_ERROR,
        errorFlags := st.errorFlags ||| inp.arrivals1,
        outputs := st.outputs ++ [Output.ledOnOff Led.LED1 false, Output.ledOnOff Led.LED2 false, Output.ledOnOff Led.LED3 false,
          Output.setRGB Colour.RED true, Output.sendMsg "Timing error"] } := by
  simp [sequenceStep, hs, wait_timeout _ CHANGE _ 8000 (by decide) h, ledOnOff, setRGB,
    sendMsg, LED_OFF, RGB_ON]

theorem step_up_early (st : SeqState) (inp : StepInput)
    (hs : st.systemState = SequenceState.STEP_UP)
    (h : (st.errorFlags ||| inp.arrivals1).testBit CHANGE = true)
    (he : elapsed inp < 4000) :
    sequenceStep st inp = some
      { systemState := SequenceState.TIME_ERROR,
        errorFlags := clearFlags (st.errorFlags ||| inp.arrivals1) (MASK CHANGE),
        outputs := st.outputs ++ [Output.ledOnOff Led.LED1 false, Output.ledOnOff Led.LED2 false, Output.ledOnOff Led.LED3 false,
          Output.setRGB Colour.RED true, Output.sendMsg "Timing error"] } := by
  unfold elapsed at he
  simp [sequenceStep, hs, wait_received _ CHANGE _ _ (by decide) h, ledOnOff, setRGB,
    sendMsg, LED_OFF, RGB_ON, he]

theorem step_up_next (st : SeqState) (inp : StepInput)
    (hs : st.systemState = SequenceState.STEP_UP)
    (hf : FlagsOk st.errorFlags) (h1 : FlagsOk inp.arrivals1) (h2 : FlagsOk inp.arrivals2)
    (h : (st.errorFlags ||| inp.arrivals1).testBit CHANGE = true)
    (he : 4000 ≤ elapsed inp)
    (hr : (st.errorFlags ||| inp.arrivals1 ||| inp.arrivals2).testBit FLAT = true) :
    sequenceStep st inp = some
      { systemState := SequenceState.TRIGGER,
        errorFlags := clearFlags
          (clearFlags (st.errorFlags ||| inp.arrivals1) (MASK CHANGE) ||| inp.arrivals2)
          (MASK FLAT),
        outputs := st.outputs ++ [Output.ledOnOff Led.LED1 false, Output.ledOnOff Led.LED2 false,
          Output.ledOnOff Led.LED3 false, Output.setRGB Colour.GREEN true] } := by
  unfold elapsed at he
  rw [← testBit_grace _ _ _ FLAT (by decide)] at hr
  have hok1 := FlagsOk_ne_timeout (FlagsOk_or hf h1)
  have hok2 := FlagsOk_ne_timeout
    (FlagsOk_or (FlagsOk_clearFlags (MASK CHANGE) (FlagsOk_or hf h1)) h2)
  simp [sequenceStep, hs, wait_received _ CHANGE _ _ (by decide) h,
    wait_received _ FLAT _ _ (by decide) hr, ledOnOff, setRGB, LED_ON, LED_OFF, RGB_ON,
    Nat.not_lt.2 he, he, hok1, hok2]

theorem step_up_wrong (st : SeqState) (inp : StepInput)
    (hs : st.systemState = SequenceState.STEP_UP)
    (hf : FlagsOk st.errorFlags) (h1 : FlagsOk inp.arrivals1)
    (h : (st.errorFlags ||| inp.arrivals1).testBit CHANGE = true)
    (he : 4000 ≤ elapsed inp)
    (hr : (st.errorFlags ||| inp.arrivals1 ||| inp.arrivals2).testBit FLAT = false) :
    sequenceStep st inp = some
      { systemState := SequenceState.SEQUENCE_ERROR,
        errorFlags := clearFlags (st.errorFlags ||| inp.arrivals1) (MASK CHANGE) ||| inp.arrivals2,
        outputs := st.outputs ++ [Output.ledOnOff Led.LED1 false, Output.ledOnOff Led.LED2 false, Output.ledOnOff Led.LED3 false,
          Output.setRGB Colour.RED true, Output.sendMsg "Sequence error"] } := by
  unfold elapsed at he
  rw [← testBit_grace _ _ _ FLAT (by decide)] at hr
  have hok1 := FlagsOk_ne_timeout (FlagsOk_or hf h1)
  simp [sequenceStep, hs, wait_received _ CHANGE _ _ (by decide) h,
    wait_timeout _ FLAT _ 500 (by decide) hr, ledOnOff, setRGB, sendMsg, LED_OFF, RGB_ON,
    Nat.not_lt.2 he, he, hok1]

theorem step_terminal (st : SeqState) (inp : StepInput)
    (h : isTerminal st.systemState = true) : sequenceStep st inp = some st := by
  obtain ⟨s, f, o⟩ := st
  cases s <;> simp [isTerminal] at h <;> rfl

theorem run_terminal (st : SeqState) (inps : List StepInput)
    (h : isTerminal st.systemState = true) : sequenceRun st inps = some st := by
  induction inps with
  | nil => rfl
  | cons inp inps ih => simp only [sequenceRun, step_terminal st inp h, ih]

/-- C5: terminal-state invariant.  In `TRIGGER`, `TIME_ERROR` and
`SEQUENCE_ERROR`, for every content of the flag object and every input, one step
of the validator returns and leaves the whole state as it is: the sequence state
is the same, the flag object is the same (no bit consumed) and no call to an
output driver is added; and so does every finite number of steps. -/
theorem terminal_state_invariant (st : SeqState) (inp : StepInput) (inps : List StepInput)
    (h : st.systemState = SequenceState.TRIGGER ∨ st.systemState = SequenceState.TIME_ERROR ∨
      st.systemState = SequenceState.SEQUENCE_ERROR) :
    sequenceStep st inp = some st ∧ sequenceRun st inps = some st := by
  have ht : isTerminal st.systemState = true := by
    rcases h with h | h | h <;> rw [h] <;> rfl
  exact ⟨step_terminal st inp ht, run_terminal st inps ht⟩

theorem terminal_state_invariant_witness :
    (SequenceState.TIME_ERROR = SequenceState.TRIGGER ∨
      SequenceState.TIME_ERROR = SequenceState.TIME_ERROR ∨
      SequenceState.TIME_ERROR = SequenceState.SEQUENCE_ERROR) ∧
    sequenceRun { systemState := SequenceState.TIME_ERROR, errorFlags := 46, outputs := [] }
        [{ tickB := 0, arrivals1 := 4, tickT := 20000, arrivals2 := 8 },
         { tickB := 7, arrivals1 := 2, tickT := 3, arrivals2 := 32 }]
      = some { systemState := SequenceState.TIME_ERROR, errorFlags := 46, outputs := [] } :=
  ⟨Or.inr (Or.inl rfl), (terminal_state_invariant
    { systemState := SequenceState.TIME_ERROR, errorFlags := 46, outputs := [] }
    { tickB := 0, arrivals1 := 4, tickT := 20000, arrivals2 := 8 }
    [{ tickB := 0, arrivals1 := 4, tickT := 20000, arrivals2 := 8 },
     { tickB := 7, arrivals1 := 2, tickT := 3, arrivals2 := 32 }]
    (Or.inr (Or.inl rfl))).2⟩

/-- C6: in `STEP_FLAT`, once the `CHANGE` event is received (flag contents of at
most 31 bits), the step returns and its outcome depends on the elapsed time
`elapsed inp` computed from the two tick readings: below 10000 the next state is
`TIME_ERROR` whatever the `RIGHT` bit is; from 10000 on (10000 included) it is
`STEP_RIGHT` when the `RIGHT` bit is pending or arrives by the end of the grace
wait, and `SEQUENCE_ERROR` when that wait times out. -/
theorem step_flat_outcome (st : SeqState) (inp : StepInput)
    (hs : st.systemState = SequenceState.STEP_FLAT)
    (hf : FlagsOk st.errorFlags) (h1 : FlagsOk inp.arrivals1) (h2 : FlagsOk inp.arrivals2)
    (hc : (st.errorFlags ||| inp.arrivals1).testBit CHANGE = true) :
    (elapsed inp < 10000 → nextState st inp = some SequenceState.TIME_ERROR) ∧
    (10000 ≤ elapsed inp →
      (st.errorFlags ||| inp.arrivals1 ||| inp.arrivals2).testBit RIGHT = true →
      nextState st inp = some SequenceState.STEP_RIGHT) ∧
    (10000 ≤ elapsed inp →
      (st.errorFlags ||| inp.arrivals1 ||| inp.arrivals2).testBit RIGHT = false →
      nextState st inp = some SequenceState.SEQUENCE_ERROR) := by
  refine ⟨?_, ?_, ?_⟩
  · intro he
    simp [nextState, step_flat_early st inp hs hc he]
  · intro he hr
    simp [nextState, step_flat_right st inp hs hf h1 h2 hc he hr]
  · intro he hr
    simp [nextState, step_flat_wrong st inp hs hc he hr]

theorem step_flat_outcome_witness :
    nextState { systemState := SequenceState.STEP_FLAT, errorFlags := 0, outputs := [] }
        { tickB := 4294967290, arrivals1 := 4, tickT := 9994, arrivals2 := 8 }
      = some SequenceState.STEP_RIGHT ∧
    nextState { systemState := SequenceState.STEP_FLAT, errorFlags := 0, outputs := [] }
        { tickB := 4294967290, arrivals1 := 4, tickT := 9993, arrivals2 := 8 }
      = some SequenceState.TIME_ERROR :=
  ⟨(step_flat_outcome
      { systemState := SequenceState.STEP_FLAT, errorFlags := 0, outputs := [] }
      { tickB := 4294967290, arrivals1 := 4, tickT := 9994, arrivals2 := 8 }
      rfl (by decide) (by decide) (by decide) (by decide)).2.1 (by decide) (by decide),
   (step_flat_outcome
      { systemState := SequenceState.STEP_FLAT, errorFlags := 0, outputs := [] }
      { tickB := 4294967290, arrivals1 := 4, tickT := 9993, arrivals2 := 8 }
      rfl (by decide) (by decide) (by decide) (by decide)).1 (by decide)⟩

/-- C7: in `STEP_RIGHT` (flag contents of at most 31 bits) the step always
returns.  If the 6000 tick wait for `CHANGE` times out, or if the elapsed time
`elapsed inp` is below 2000, the next state is `TIME_ERROR`.  If `CHANGE` is
received and the elapsed time is 2000 or more (2000 included), the next state is
`STEP_UP` when the `UP` bit is pending or arrives by the end of the grace wait,
and `SEQUENCE_ERROR` when that wait times out. -/
theorem step_right_outcome (st : SeqState) (inp : StepInput)
    (hs : st.systemState = SequenceState.STEP_RIGHT)
    (hf : FlagsOk st.errorFlags) (h1 : FlagsOk inp.arrivals1) (h2 : FlagsOk inp.arrivals2) :
    ((st.errorFlags ||| inp.arrivals1).testBit CHANGE = false →
      nextState st inp = some SequenceState.TIME_ERROR) ∧
    (elapsed inp < 2000 → nextState st inp = some SequenceState.TIME_ERROR) ∧
    ((st.errorFlags ||| inp.arrivals1).testBit CHANGE = true →
      2000 ≤ elapsed inp →
      (st.errorFlags ||| inp.arrivals1 ||| inp.arrivals2).testBit UP = true →
      nextState st inp = some SequenceState.STEP_UP) ∧
    ((st.errorFlags ||| inp.arrivals1).testBit CHANGE = true →
      2000 ≤ elapsed inp →
      (st.errorFlags ||| inp.arrivals1 ||| inp.arrivals2).testBit UP = false →
      nextState st inp = some SequenceState.SEQUENCE_ERROR) := by
  refine ⟨?_, ?_, ?_, ?_⟩
  · intro hc
    simp [nextState, step_right_timeout st inp hs hc]
  · intro he
    cases hc : (st.errorFlags ||| inp.arrivals1).testBit CHANGE
    · simp [nextState, step_right_timeout st inp hs hc]
    · simp [nextState, step_right_early st inp hs hc he]
  · intro hc he hr
    simp [nextState, step_right_next st inp hs hf h1 h2 hc he hr]
  · intro hc he hr
    simp [nextState, step_right_wrong st inp hs hf h1 hc he hr]

theorem step_right_outcome_witness :
    nextState { systemState := SequenceState.STEP_RIGHT, errorFlags := 0, outputs := [] }
        { tickB := 100, arrivals1 := 4, tickT := 2100, arrivals2 := 32 }
      = some SequenceState.STEP_UP ∧
    nextState { systemState := SequenceState.STEP_RIGHT, errorFlags := 0, outputs := [] }
        { tickB := 100, arrivals1 := 4, tickT := 2099, arrivals2 := 32 }
      = some SequenceState.TIME_ERROR :=
  ⟨(step_right_outcome
      { systemState := SequenceState.STEP_RIGHT, errorFlags := 0, outputs := [] }
      { tickB := 100, arrivals1 := 4, tickT := 2100, arrivals2 := 32 }
      rfl (by decide) (by decide) (by decide)).2.2.1 (by decide) (by decide) (by decide),
   (step_right_outcome
      { systemState := SequenceState.STEP_RIGHT, errorFlags := 0, outputs := [] }
      { tickB := 100, arrivals1 := 4, tickT := 2099, arrivals2 := 32 }
      rfl (by decide) (by decide) (by decide)).2.1 (by decide)⟩

/-- C8: in `STEP_UP` (flag contents of at most 31 bits) the step always
returns.  If the 8000 tick wait for `CHANGE` times out, or if the elapsed time
`elapsed inp` is below 4000, the next state is `TIME_ERROR`.  If `CHANGE` is
received and the elapsed time is 4000 or more, the next state is `TRIGGER` when
the `FLAT` bit is pending or arrives by the end of the grace wait, and
`SEQUENCE_ERROR` when that wait times out. -/
theorem step_up_outcome (st : SeqState) (inp : StepInput)
    (hs : st.systemState = SequenceState.STEP_UP)
    (hf : FlagsOk st.errorFlags) (h1 : FlagsOk inp.arrivals1) (h2 : FlagsOk inp.arrivals2) :
    ((st.errorFlags ||| inp.arrivals1).testBit CHANGE = false →
      nextState st inp = some SequenceState.TIME_ERROR) ∧
    (elapsed inp < 4000 → nextState st inp = some SequenceState.TIME_ERROR) ∧
    ((st.errorFlags ||| inp.arrivals1).testBit CHANGE = true →
      4000 ≤ elapsed inp →
      (st.errorFlags ||| inp.arrivals1 ||| inp.arrivals2).testBit FLAT = true →
      nextState st inp = some SequenceState.TRIGGER) ∧
    ((st.errorFlags ||| inp.arrivals1).testBit CHANGE = true →
      4000 ≤ elapsed inp →
      (st.errorFlags ||| inp.arrivals1 ||| inp.arrivals2).testBit FLAT = false →
      nextState st inp = some SequenceState.SEQUENCE_ERROR) := by
  refine ⟨?_, ?_, ?_, ?_⟩
  · intro hc
    simp [nextState, step_up_timeout st inp hs hc]
  · intro he
    cases hc : (st.errorFlags ||| inp.arrivals1).testBit CHANGE
    · simp [nextState, step_up_timeout st inp hs hc]
    · simp [nextState, step_up_early st inp hs hc he]
  · intro hc he hr
    simp [nextState, step_up_next st inp hs hf h1 h2 hc he hr]
  · intro hc he hr
    simp [nextState, step_up_wrong st inp hs hf h1 hc he hr]

theorem step_up_outcome_witness :
    nextState { systemState := SequenceState.STEP_UP, errorFlags := 0, outputs := [] }
        { tickB := 100, arrivals1 := 4, tickT := 4100, arrivals2 := 2 }
      = some SequenceState.TRIGGER ∧
    nextState { systemState := SequenceState.STEP_UP, errorFlags := 0, outputs := [] }
        { tickB := 100, arrivals1 := 4, tickT := 4100, arrivals2 := 8 }
      = some SequenceState.SEQUENCE_ERROR :=
  ⟨(step_up_outcome
      { systemState := SequenceState.STEP_UP, errorFlags := 0, outputs := [] }
      { tickB := 100, arrivals1 := 4, tickT := 4100, arrivals2 := 2 }
      rfl (by decide) (by decide) (by decide)).2.2.1 (by decide) (by decide) (by decide),
   (step_up_outcome
      { systemState := SequenceState.STEP_UP, errorFlags := 0, outputs := [] }
      { tickB := 100, arrivals1 := 4, tickT := 4100, arrivals2 := 8 }
      rfl (by decide) (by decide) (by decide)).2.2.2 (by decide) (by decide) (by decide)⟩

/-- C9, as stated, fails: with `CHANGE` received and an elapsed time of exactly
6000 the step from `STEP_RIGHT` reaches `STEP_UP`, and with an elapsed time of
exactly 8000 the step from `STEP_UP` reaches `TRIGGER`. -/
theorem success_window_upper_bound_fails :
    elapsed { tickB := 0, arrivals1 := MASK CHANGE, tickT := 6000, arrivals2 := MASK UP } = 6000 ∧
    nextState { systemState := SequenceState.STEP_RIGHT, errorFlags := 0, outputs := [] }
        { tickB := 0, arrivals1 := MASK CHANGE, tickT := 6000, arrivals2 := MASK UP }
      = some SequenceState.STEP_UP ∧
    elapsed { tickB := 0, arrivals1 := MASK CHANGE, tickT := 8000, arrivals2 := MASK FLAT } = 8000 ∧
    nextState { systemState := SequenceState.STEP_UP, errorFlags := 0, outputs := [] }
        { tickB := 0, arrivals1 := MASK CHANGE, tickT := 8000, arrivals2 := MASK FLAT }
      = some SequenceState.TRIGGER := by
  decide

/-- C9, amended: the validator goes from `STEP_RIGHT` to `STEP_UP` only if the
6000 tick wait for `CHANGE` did not time out (the bit was pending or arrived) and
the elapsed time is at least 2000, and from `STEP_UP` to `TRIGGER` only if the
8000 tick wait for `CHANGE` did not time out and the elapsed time is at least
4000.  The upper end of the window is the timeout of the wait; the elapsed time
itself is compared with the lower end only. -/
theorem success_only_in_window (st : SeqState) (inp : StepInput) :
    (st.systemState = SequenceState.STEP_RIGHT →
      nextState st inp = some SequenceState.STEP_UP →
      (st.errorFlags ||| inp.arrivals1).testBit CHANGE = true ∧ 2000 ≤ elapsed inp) ∧
    (st.systemState = SequenceState.STEP_UP →
      nextState st inp = some SequenceState.TRIGGER →
      (st.errorFlags ||| inp.arrivals1).testBit CHANGE = true ∧ 4000 ≤ elapsed inp) := by
  constructor
  · intro hs hn
    cases hc : (st.errorFlags ||| inp.arrivals1).testBit CHANGE
    · simp [nextState, step_right_timeout st inp hs hc] at hn
    · by_cases he : 2000 ≤ elapsed inp
      · exact ⟨rfl, he⟩
      · simp [nextState, step_right_early st inp hs hc (Nat.not_le.1 he)] at hn
  · intro hs hn
    cases hc : (st.errorFlags ||| inp.arrivals1).testBit CHANGE
    · simp [nextState, step_up_timeout st inp hs hc] at hn
    · by_cases he : 4000 ≤ elapsed inp
      · exact ⟨rfl, he⟩
      · simp [nextState, step_up_early st inp hs hc (Nat.not_le.1 he)] at hn

theorem success_only_in_window_witness :
    (0 ||| 4).testBit CHANGE = true ∧
    2000 ≤ elapsed { tickB := 50, arrivals1 := 4, tickT := 3050, arrivals2 := 32 } :=
  (success_only_in_window
    { systemState := SequenceState.STEP_RIGHT, errorFlags := 0, outputs := [] }
    { tickB := 50, arrivals1 := 4, tickT := 3050, arrivals2 := 32 }).1 rfl (by decide)

/-- C10: the full success path.  From `STEP_ON` (flag contents of at most 31
bits throughout): if `FLAT` is received the first step returns in `STEP_FLAT`;
if then `CHANGE` is received with an elapsed time of at least 10000 and `RIGHT`
is there by the end of the grace wait, the second step returns in `STEP_RIGHT`;
if then `CHANGE` is received with an elapsed time in [2000, 6000) and `UP` is
there by the end of the grace wait, the third step returns in `STEP_UP`; if then
`CHANGE` is received with an elapsed time in [4000, 8000) and `FLAT` is there by
the end of the grace wait, the fourth step returns in `TRIGGER`; the run of the
four steps ends in that state, and so does the run continued by any further
inputs. -/
theorem full_success_path (st0 : SeqState) (i1 : StepInput)
    (hs : st0.systemState = SequenceState.STEP_ON)
    (hf : FlagsOk st0.errorFlags) (ha1 : FlagsOk i1.arrivals1)
    (hflat : (st0.errorFlags ||| i1.arrivals1).testBit FLAT = true) :
    ∃ st1, sequenceStep st0 i1 = some st1 ∧ st1.systemState = SequenceState.STEP_FLAT ∧
    ∀ i2 : StepInput, FlagsOk i2.arrivals1 → FlagsOk i2.arrivals2 →
      (st1.errorFlags ||| i2.arrivals1).testBit CHANGE = true →
      10000 ≤ elapsed i2 →
      (st1.errorFlags ||| i2.arrivals1 ||| i2.arrivals2).testBit RIGHT = true →
    ∃ st2, sequenceStep st1 i2 = some st2 ∧ st2.systemState = SequenceState.STEP_RIGHT ∧
    ∀ i3 : StepInput, FlagsOk i3.arrivals1 → FlagsOk i3.arrivals2 →
      (st2.errorFlags ||| i3.arrivals1).testBit CHANGE = true →
      2000 ≤ elapsed i3 ∧ elapsed i3 < 6000 →
      (st2.errorFlags ||| i3.arrivals1 ||| i3.arrivals2).testBit UP = true →
    ∃ st3, sequenceStep st2 i3 = some st3 ∧ st3.systemState = SequenceState.STEP_UP ∧
    ∀ i4 : StepInput, FlagsOk i4.arrivals1 → FlagsOk i4.arrivals2 →
      (st3.errorFlags ||| i4.arrivals1).testBit CHANGE = true →
      4000 ≤ elapsed i4 ∧ elapsed i4 < 8000 →
      (st3.errorFlags ||| i4.arrivals1 ||| i4.arrivals2).testBit FLAT = true →
    ∃ st4, sequenceStep st3 i4 = some st4 ∧ st4.systemState = SequenceState.TRIGGER ∧
      sequenceRun st0 [i1, i2, i3, i4] = some st4 ∧
      ∀ more : List StepInput, sequenceRun st0 ([i1, i2, i3, i4] ++ more) = some st4 := by
  have e1 := step_on_received st0 i1 hs hflat
  refine ⟨_, e1, rfl, ?_⟩
  intro i2 hb1 hb2 hc2 he2 hr2
  have ok1 : FlagsOk (clearFlags (st0.errorFlags ||| i1.arrivals1) (MASK FLAT)) :=
    FlagsOk_clearFlags _ (FlagsOk_or hf ha1)
  have e2 := step_flat_right _ i2 rfl ok1 hb1 hb2 hc2 he2 hr2
  refine ⟨_, e2, rfl, ?_⟩
  intro i3 hc1 hc2' hc3 he3 hr3
  have ok2 := FlagsOk_clearFlags (MASK RIGHT)
    (FlagsOk_or (FlagsOk_clearFlags (MASK CHANGE) (FlagsOk_or ok1 hb1)) hb2)
  have e3 := step_right_next _ i3 rfl ok2 hc1 hc2' hc3 he3.1 hr3
  refine ⟨_, e3, rfl, ?_⟩
  intro i4 hd1 hd2 hc4 he4 hr4
  have ok3 := FlagsOk_clearFlags (MASK UP)
    (FlagsOk_or (FlagsOk_clearFlags (MASK CHANGE) (FlagsOk_or ok2 hc1)) hc2')
  have e4 := step_up_next _ i4 rfl ok3 hd1 hd2 hc4 he4.1 hr4
  refine ⟨_, e4, rfl, ?_, ?_⟩
  · simp only [sequenceRun, e1, e2, e3, e4]
  · intro more
    simp only [List.cons_append, List.nil_append, sequenceRun, e1, e2, e3, e4]
    exact run_terminal _ more rfl

theorem full_success_path_witness :
    sequenceRun (sequenceInit 0)
        [{ tickB := 0, arrivals1 := 2, tickT := 0, arrivals2 := 0 },
         { tickB := 10, arrivals1 := 4, tickT := 10010, arrivals2 := 8 },
         { tickB := 10500, arrivals1 := 4, tickT := 12500, arrivals2 := 32 },
         { tickB := 13000, arrivals1 := 4, tickT := 20999, arrivals2 := 2 },
         { tickB := 0, arrivals1 := 46, tickT := 0, arrivals2 := 46 }]
      = some
        { systemState := SequenceState.TRIGGER, errorFlags := 0,
          outputs := [Output.ledOnOff Led.LED1 true, Output.ledOnOff Led.LED2 true,
            Output.ledOnOff Led.LED3 true, Output.ledOnOff Led.LED1 false,
            Output.ledOnOff Led.LED2 false, Output.ledOnOff Led.LED3 false,
            Output.setRGB Colour.GREEN true] } := by
  obtain ⟨st1, e1, _, h1⟩ := full_success_path (sequenceInit 0)
    { tickB := 0, arrivals1 := 2, tickT := 0, arrivals2 := 0 } rfl (by decide) (by decide)
    (by decide)
  cases (Option.some.inj (e1.symm.trans (by decide :
    sequenceStep (sequenceInit 0) { tickB := 0, arrivals1 := 2, tickT := 0, arrivals2 := 0 }
      = some { systemState := SequenceState.STEP_FLAT, errorFlags := 0,
               outputs := [Output.ledOnOff Led.LED1 true] })))
  obtain ⟨st2, e2, _, h2⟩ := h1 { tickB := 10, arrivals1 := 4, tickT := 10010, arrivals2 := 8 }
    (by decide) (by decide) (by decide) (by decide) (by decide)
  cases (Option.some.inj (e2.symm.trans (by decide :
    sequenceStep { systemState := SequenceState.STEP_FLAT, errorFlags := 0,
                   outputs := [Output.ledOnOff Led.LED1 true] }
        { tickB := 10, arrivals1 := 4, tickT := 10010, arrivals2 := 8 }
      = some { systemState := SequenceState.STEP_RIGHT, errorFlags := 0,
               outputs := [Output.ledOnOff Led.LED1 true, Output.ledOnOff Led.LED2 true] })))
  obtain ⟨st3, e3, _, h3⟩ := h2
    { tickB := 10500, arrivals1 := 4, tickT := 12500, arrivals2 := 32 }
    (by decide) (by decide) (by decide) (by decide) (by decide)
  cases (Option.some.inj (e3.symm.trans (by decide :
    sequenceStep { systemState := SequenceState.STEP_RIGHT, errorFlags := 0,
                   outputs := [Output.ledOnOff Led.LED1 true, Output.ledOnOff Led.LED2 true] }
        { tickB := 10500, arrivals1 := 4, tickT := 12500, arrivals2 := 32 }
      = some { systemState := SequenceState.STEP_UP, errorFlags := 0,
               outputs := [Output.ledOnOff Led.LED1 true, Output.ledOnOff Led.LED2 true,
                 Output.ledOnOff Led.LED3 true] })))
  obtain ⟨st4, e4, _, _, h4⟩ := h3
    { tickB := 13000, arrivals1 := 4, tickT := 20999, arrivals2 := 2 }
    (by decide) (by decide) (by decide) (by decide) (by decide)
  cases (Option.some.inj (e4.symm.trans (by decide :
    sequenceStep { systemState := SequenceState.STEP_UP, errorFlags := 0,
                   outputs := [Output.ledOnOff Led.LED1 true, Output.ledOnOff Led.LED2 true,
                     Output.ledOnOff Led.LED3 true] }
        { tickB := 13000, arrivals1 := 4, tickT := 20999, arrivals2 := 2 }
      = some { systemState := SequenceState.TRIGGER, errorFlags := 0,
               outputs := [Output.ledOnOff Led.LED1 true, Output.ledOnOff Led.LED2 true,
                 Output.ledOnOff Led.LED3 true, Output.ledOnOff Led.LED1 false,
                 Output.ledOnOff Led.LED2 false, Output.ledOnOff Led.LED3 false,
                 Output.setRGB Colour.GREEN true] })))
  exact h4 [{ tickB := 0, arrivals1 := 46, tickT := 0, arrivals2 := 46 }]

/-! ## Tick arithmetic and normalization -/

/-- C11: the elapsed time tolerates one wraparound of the 32 bit tick counter.
For every start tick `t0` and every true duration `d < 2 ^ 32`, with the end tick
`(t0 + d) mod 2 ^ 32` the unsigned subtraction gives `d`, also when the end tick
is below the start tick; so `elapsed` is `d` for such a pair of readings. -/
theorem elapsed_tolerates_wraparound (t0 d : Nat) (hd : d < 4294967296) :
    sub32 ((t0 + d) % 4294967296) t0 = d ∧
    ∀ a1 a2 : Nat,
      elapsed { tickB := t0, arrivals1 := a1, tickT := (t0 + d) % 4294967296, arrivals2 := a2 }
        = d := by
  have h : sub32 ((t0 + d) % 4294967296) t0 = d := by
    unfold sub32
    omega
  exact ⟨h, fun _ _ => h⟩

theorem elapsed_tolerates_wraparound_witness :
    (10000 : Nat) < 4294967296 ∧ (4294967290 + 10000) % 4294967296 < 4294967290 ∧
    sub32 ((4294967290 + 10000) % 4294967296) 4294967290 = 10000 :=
  ⟨by decide, by decide, (elapsed_tolerates_wraparound 4294967290 10000 (by decide)).1⟩

/-- For a reading in the range of the sensor the normalized value is the
truncated quotient itself: the conversion to `int16_t` does not wrap. -/
theorem normalizeAxis_eq (r : Int) (hlo : -8192 ≤ r) (hhi : r ≤ 8191) :
    normalizeAxis r = Int.tdiv (r * 100) 4096 ∧
    -200 ≤ Int.tdiv (r * 100) 4096 ∧ Int.tdiv (r * 100) 4096 ≤ 199 := by
  have hq : -200 ≤ Int.tdiv (r * 100) 4096 ∧ Int.tdiv (r * 100) 4096 ≤ 199 := by
    by_cases h0 : 0 ≤ r
    · rw [Int.tdiv_eq_ediv (by omega) (by decide)]
      omega
    · have hneg : r * 100 = -(-r * 100) := by ring
      rw [hneg, Int.neg_tdiv, Int.tdiv_eq_ediv (by omega) (by decide)]
      omega
  refine ⟨?_, hq⟩
  unfold normalizeAxis toInt16
  omega

/-- C13: normalization range.  For every raw reading `r` with
`-8192 ≤ r ≤ 8191` the value `(r * 100) / 4096`, with the division truncating
toward zero and the result stored in an `int16_t`, lies in [-200, 200]; and a
reading of exactly 1 g, `r = 4096`, gives 100. -/
theorem normalization_range (r : Int) (hlo : -8192 ≤ r) (hhi : r ≤ 8191) :
    -200 ≤ normalizeAxis r ∧ normalizeAxis r ≤ 200 ∧ normalizeAxis 4096 = 100 := by
  obtain ⟨he, h1, h2⟩ := normalizeAxis_eq r hlo hhi
  refine ⟨by omega, by omega, by decide⟩

theorem normalization_range_witness :
    (-8192 : Int) ≤ -8192 ∧ (-8192 : Int) ≤ 8191 ∧ normalizeAxis (-8192) = -200 ∧
    -200 ≤ normalizeAxis (-8192) ∧ normalizeAxis (-8192) ≤ 200 :=
  ⟨by decide, by decide, by decide,
    (normalization_range (-8192) (by decide) (by decide)).1,
    (normalization_range (-8192) (by decide) (by decide)).2.1⟩

/-! ## Entry and exit of the orientation monitor -/

/-- The bits a classification step sets, in each state. -/
theorem eventsSet_eq (s : OrientationState) (v : Sample) :
    eventsSet s v =
      match s, nextOrientation s v with
      | OrientationState.INTERMEDIATE, OrientationState.FLAT => MASK FLAT
      | OrientationState.INTERMEDIATE, OrientationState.RIGHT => MASK RIGHT
      | OrientationState.INTERMEDIATE, OrientationState.UP => MASK UP
      | OrientationState.INTERMEDIATE, _ => 0
      | _, OrientationState.INTERMEDIATE => MASK CHANGE
      | _, _ => 0 := by
  cases s <;> simp only [eventsSet, nextOrientation, accelStep, osEventFlagsSet] <;>
    split_ifs <;> simp

/-- C14: the events emitted on entry.  For every sample, a classification step
from `INTERMEDIATE` sets the `RIGHT` bit exactly when it enters `RIGHT`, the `UP`
bit exactly when it enters `UP` and the `FLAT` bit exactly when it enters `FLAT`,
in each case that bit alone; it sets no bit at all when it enters `OVER`, `LEFT`
or `DOWN` or stays `INTERMEDIATE`; and a classification step from any state sets
at most one event bit. -/
theorem entry_events_asymmetric (v : Sample) :
    ((eventsSet OrientationState.INTERMEDIATE v).testBit RIGHT = true ↔
      nextOrientation OrientationState.INTERMEDIATE v = OrientationState.RIGHT) ∧
    ((eventsSet OrientationState.INTERMEDIATE v).testBit UP = true ↔
      nextOrientation OrientationState.INTERMEDIATE v = OrientationState.UP) ∧
    ((eventsSet OrientationState.INTERMEDIATE v).testBit FLAT = true ↔
      nextOrientation OrientationState.INTERMEDIATE v = OrientationState.FLAT) ∧
    (nextOrientation OrientationState.INTERMEDIATE v = OrientationState.RIGHT →
      eventsSet OrientationState.INTERMEDIATE v = MASK RIGHT) ∧
    (nextOrientation OrientationState.INTERMEDIATE v = OrientationState.UP →
      eventsSet OrientationState.INTERMEDIATE v = MASK UP) ∧
    (nextOrientation OrientationState.INTERMEDIATE v = OrientationState.FLAT →
      eventsSet OrientationState.INTERMEDIATE v = MASK FLAT) ∧
    (nextOrientation OrientationState.INTERMEDIATE v = OrientationState.OVER ∨
      nextOrientation OrientationState.INTERMEDIATE v = OrientationState.LEFT ∨
      nextOrientation OrientationState.INTERMEDIATE v = OrientationState.DOWN ∨
      nextOrientation OrientationState.INTERMEDIATE v = OrientationState.INTERMEDIATE →
      eventsSet OrientationState.INTERMEDIATE v = 0) ∧
    (∀ (s : OrientationState) (f : Nat),
      (accelStep { orientationState := s, errorFlags := f } v).errorFlags
        = f ||| eventsSet s v ∧
      countEventBits (eventsSet s v) ≤ 1) := by
  refine ⟨?_, ?_, ?_, ?_, ?_, ?_, ?_, ?_⟩
  · rw [eventsSet_eq]
    cases h : nextOrientation OrientationState.INTERMEDIATE v <;> simp <;> decide
  · rw [eventsSet_eq]
    cases h : nextOrientation OrientationState.INTERMEDIATE v <;> simp <;> decide
  · rw [eventsSet_eq]
    cases h : nextOrientation OrientationState.INTERMEDIATE v <;> simp <;> decide
  · intro h; rw [eventsSet_eq, h]
  · intro h; rw [eventsSet_eq, h]
  · intro h; rw [eventsSet_eq, h]
  · intro h; rw [eventsSet_eq]
    rcases h with h | h | h | h <;> rw [h]
  · intro s f
    refine ⟨by rw [accelStep_eq], ?_⟩
    rw [eventsSet_eq]
    cases s <;> cases nextOrientation _ v <;> decide

/-- C15: the exit tests read the matching axis only.  For every state `s` other
than `INTERMEDIATE`, every flag object and every sample, the step from `s` leads
to `INTERMEDIATE` exactly when the governing axis of `s` has receded strictly
past 80 and otherwise stays in `s`; and two samples that agree on the governing
axis give the same step, whatever their other two axes are. -/
theorem exit_tests_governing_axis (s : OrientationState) (f : Nat) (v w : Sample)
    (hs : s ≠ OrientationState.INTERMEDIATE) :
    ((accelStep { orientationState := s, errorFlags := f } v).orientationState
        = OrientationState.INTERMEDIATE ↔ receded s v = true) ∧
    (receded s v = false →
      accelStep { orientationState := s, errorFlags := f } v
        = { orientationState := s, errorFlags := f }) ∧
    (governingAxis s w = governingAxis s v →
      accelStep { orientationState := s, errorFlags := f } w
        = accelStep { orientationState := s, errorFlags := f } v) := by
  cases s <;> simp only [ne_eq, not_true_eq_false, reduceCtorEq, not_false_eq_true] at hs <;>
    simp only [accelStep, receded, governingAxis, decide_eq_true_eq, decide_eq_false_iff_not] <;>
    refine ⟨?_, ?_, ?_⟩ <;>
    first
      | (intro h; rw [h])
      | (intro h; rw [if_neg h])
      | (split_ifs <;> simp_all)

theorem exit_tests_governing_axis_witness :
    OrientationState.RIGHT ≠ OrientationState.INTERMEDIATE ∧
    accelStep { orientationState := OrientationState.RIGHT, errorFlags := 0 }
        { x := -100, y := -80, z := 100 }
      = { orientationState := OrientationState.RIGHT, errorFlags := 0 } :=
  ⟨by decide,
    (exit_tests_governing_axis OrientationState.RIGHT 0 { x := -100, y := -80, z := 100 }
      { x := 0, y := -80, z := 0 } (by decide)).2.1 (by decide)⟩

/-- C20: an entry sample never triggers an exit.  For every sample `v`, if the
step from `INTERMEDIATE` on `v` enters a state other than `INTERMEDIATE`, the
step from that state on the same `v` stays there and leaves the flag object as it
is; and a step from a state other than `INTERMEDIATE` leads to the same state or
to `INTERMEDIATE`, never to a third state. -/
theorem entry_sample_never_exits (v : Sample) (f : Nat) :
    (nextOrientation OrientationState.INTERMEDIATE v ≠ OrientationState.INTERMEDIATE →
      accelStep { orientationState := nextOrientation OrientationState.INTERMEDIATE v,
                  errorFlags := f } v
        = { orientationState := nextOrientation OrientationState.INTERMEDIATE v,
            errorFlags := f }) ∧
    (∀ s : OrientationState, s ≠ OrientationState.INTERMEDIATE →
      (accelStep { orientationState := s, errorFlags := f } v).orientationState = s ∨
      (accelStep { orientationState := s, errorFlags := f } v).orientationState
        = OrientationState.INTERMEDIATE) := by
  constructor
  · intro hne
    apply accelStep_holdsAxis
    rw [nextOrientation_intermediate] at hne ⊢
    split_ifs at hne ⊢ <;> simp [holdsAxis] <;> first | omega | exact absurd rfl hne
  · intro s hs
    cases s <;> first
      | exact absurd rfl hs
      | (simp only [accelStep]; split_ifs <;> simp)

theorem entry_sample_never_exits_witness :
    nextOrientation OrientationState.INTERMEDIATE { x := 0, y := 0, z := 91 }
      ≠ OrientationState.INTERMEDIATE ∧
    accelStep { orientationState := OrientationState.FLAT, errorFlags := 2 }
        { x := 0, y := 0, z := 91 }
      = { orientationState := OrientationState.FLAT, errorFlags := 2 } :=
  ⟨by decide, (entry_sample_never_exits { x := 0, y := 0, z := 91 } 2).1 (by decide)⟩

/-- C18: the heartbeat is missing.  A sampling cycle of the monitor makes no call
to an output driver, in any state and on any reading: no indicator is toggled. -/
theorem sampling_cycle_no_heartbeat (st : AccelState) (xyz : RawSample) :
    (accelCycle st xyz).2 = [] ∧
    (accelCycle st xyz).1 = accelStep st (normalizeSample xyz) := by
  exact ⟨rfl, rfl⟩

/-! ## Every iteration of the validator -/

/-- Every iteration of the validator that returns ends in one of the ways listed
in `outcomes`, for every content of the flag object and every input: the calls it
makes are appended to the calls made so far. -/
theorem step_outcome (st : SeqState) (inp : StepInput) (st1 : SeqState)
    (h : sequenceStep st inp = some st1) :
    ∃ added, st1.outputs = st.outputs ++ added ∧
      (st1.systemState, added) ∈ outcomes st.systemState := by
  obtain ⟨s, f, o⟩ := st
  cases s <;>
    simp only [sequenceStep, osEventFlagsWait, ledOnOff, setRGB, sendMsg, LED_ON, LED_OFF,
      RGB_ON, List.append_assoc, List.singleton_append, List.cons_append, List.nil_append] at h
  all_goals
    repeat' split at h
  all_goals
    first
      | (cases h; done)
      | (rename_i h1 h2
         exfalso
         apply h2
         constructor
         · intro e
           exact h1 (Or.inl e)
         · apply Nat.not_lt.1
           intro e
           exact h1 (Or.inr e))
      | (cases (Option.some.inj h); exact ⟨_, rfl, by simp [outcomes]⟩)
      | (cases (Option.some.inj h); exact ⟨[], by simp, by simp [outcomes]⟩)

/-- What each way of ending an iteration reports: the red colour is switched on
and the line names the error class exactly in the entries that enter an error
state. -/
theorem outcomes_reporting (s s1 : SequenceState) (added : List Output)
    (hm : (s1, added) ∈ outcomes s) :
    (s ≠ SequenceState.TIME_ERROR → s1 = SequenceState.TIME_ERROR →
      Output.setRGB Colour.RED true ∈ added ∧ diagnosticLines added = ["Timing error"]) ∧
    (s ≠ SequenceState.SEQUENCE_ERROR → s1 = SequenceState.SEQUENCE_ERROR →
      Output.setRGB Colour.RED true ∈ added ∧ diagnosticLines added = ["Sequence error"]) ∧
    (s1 ≠ SequenceState.TIME_ERROR → s1 ≠ SequenceState.SEQUENCE_ERROR →
      diagnosticLines added = [] ∧ ∀ b : Bool, Output.setRGB Colour.RED b ∉ added) := by
  cases s <;> simp only [outcomes, List.mem_cons, List.mem_singleton, Prod.mk.injEq,
      List.not_mem_nil, or_false] at hm
  all_goals
    first
      | (rcases hm with ⟨rfl, rfl⟩ | ⟨rfl, rfl⟩ | ⟨rfl, rfl⟩ <;> simp [diagnosticLines] <;> done)
      | (obtain ⟨rfl, rfl⟩ := hm
         simp [diagnosticLines])

/-- C12: error reporting names the error class.  For every iteration of the
validator that returns, with `added` the calls it makes to the output drivers:
if it enters `TIME_ERROR` it switches the red colour on and writes exactly the
line "Timing error"; if it enters `SEQUENCE_ERROR` it switches the red colour on
and writes exactly the line "Sequence error"; if it ends in a state that is not
an error state it writes no line and makes no call on the red colour. -/
theorem error_reporting (st : SeqState) (inp : StepInput) (st1 : SeqState)
    (h : sequenceStep st inp = some st1) :
    ∃ added, st1.outputs = st.outputs ++ added ∧
      (st.systemState ≠ SequenceState.TIME_ERROR →
        st1.systemState = SequenceState.TIME_ERROR →
        Output.setRGB Colour.RED true ∈ added ∧
          diagnosticLines added = ["Timing error"]) ∧
      (st.systemState ≠ SequenceState.SEQUENCE_ERROR →
        st1.systemState = SequenceState.SEQUENCE_ERROR →
        Output.setRGB Colour.RED true ∈ added ∧
          diagnosticLines added = ["Sequence error"]) ∧
      (st1.systemState ≠ SequenceState.TIME_ERROR →
        st1.systemState ≠ SequenceState.SEQUENCE_ERROR →
        diagnosticLines added = [] ∧ ∀ b : Bool, Output.setRGB Colour.RED b ∉ added) := by
  obtain ⟨added, ha, hm⟩ := step_outcome st inp st1 h
  exact ⟨added, ha, outcomes_reporting _ _ _ hm⟩

theorem error_reporting_witness :
    ∃ added,
      [Output.ledOnOff Led.LED1 true, Output.ledOnOff Led.LED1 false,
        Output.setRGB Colour.RED true, Output.sendMsg "Timing error"]
        = [Output.ledOnOff Led.LED1 true] ++ added ∧
      diagnosticLines added = ["Timing error"] := by
  obtain ⟨added, ha, h1, _, _⟩ := error_reporting
    { systemState := SequenceState.STEP_FLAT, errorFlags := 4,
      outputs := [Output.ledOnOff Led.LED1 true] }
    { tickB := 0, arrivals1 := 0, tickT := 9999, arrivals2 := 8 }
    { systemState := SequenceState.TIME_ERROR, errorFlags := 0,
      outputs := [Output.ledOnOff Led.LED1 true, Output.ledOnOff Led.LED1 false,
        Output.setRGB Colour.RED true, Output.sendMsg "Timing error"] }
    (by decide)
  exact ⟨added, ha, (h1 (by decide) rfl).2⟩

/-! ## Indicators -/

theorem indicatorsFrom_append (ind : Indicators) (a b : List Output) :
    indicatorsFrom ind (a ++ b) = indicatorsFrom (indicatorsFrom ind a) b := by
  simp [indicatorsFrom, List.foldl_append]

/-- Each way of ending an iteration takes the indicators of the state it starts
in to the indicators of the state it ends in. -/
theorem outcomes_indicators (s s1 : SequenceState) (added : List Output)
    (hm : (s1, added) ∈ outcomes s) :
    indicatorsFrom (expectedIndicators s) added = expectedIndicators s1 := by
  cases s <;> simp only [outcomes, List.mem_cons, List.mem_singleton, Prod.mk.injEq,
      List.not_mem_nil, or_false] at hm
  all_goals
    first
      | (rcases hm with ⟨rfl, rfl⟩ | ⟨rfl, rfl⟩ | ⟨rfl, rfl⟩ <;> rfl)
      | (obtain ⟨rfl, rfl⟩ := hm
         rfl)

/-- The indicators follow the sequence state along every run. -/
theorem run_indicators (st : SeqState) (inps : List StepInput) (st1 : SeqState)
    (hinv : indicatorsFrom allOff st.outputs = expectedIndicators st.systemState)
    (h : sequenceRun st inps = some st1) :
    indicatorsFrom allOff st1.outputs = expectedIndicators st1.systemState := by
  induction inps generalizing st with
  | nil =>
    simp only [sequenceRun, Option.some.injEq] at h
    rw [← h]; exact hinv
  | cons inp inps ih =>
    simp only [sequenceRun] at h
    cases hs : sequenceStep st inp with
    | none => rw [hs] at h; cases h
    | some st2 =>
      rw [hs] at h
      obtain ⟨added, ha, hm⟩ := step_outcome st inp st2 hs
      refine ih st2 ?_ h
      rw [ha, indicatorsFrom_append, hinv]
      exact outcomes_indicators _ _ _ hm

/-- C17: the indicators are a function of the sequence state.  With all
indicators off at start, in every state the validator reaches the indicators are
those of `expectedIndicators`: no step LED in `STEP_ON`, LED1 in `STEP_FLAT`, LED1
and LED2 in `STEP_RIGHT`, all three in `STEP_UP`, none in the terminal states;
green is on exactly in `TRIGGER` and red exactly in `TIME_ERROR` and
`SEQUENCE_ERROR`, so red and green are never on together. -/
theorem indicators_follow_state (f : Nat) (inps : List StepInput) (st : SeqState)
    (h : sequenceRun (sequenceInit f) inps = some st) :
    indicatorsFrom allOff st.outputs = expectedIndicators st.systemState ∧
    ((indicatorsFrom allOff st.outputs).green = true ↔
      st.systemState = SequenceState.TRIGGER) ∧
    ((indicatorsFrom allOff st.outputs).red = true ↔
      st.systemState = SequenceState.TIME_ERROR ∨
      st.systemState = SequenceState.SEQUENCE_ERROR) ∧
    ¬ ((indicatorsFrom allOff st.outputs).red = true ∧
      (indicatorsFrom allOff st.outputs).green = true) := by
  have hinv := run_indicators (sequenceInit f) inps st rfl h
  refine ⟨hinv, ?_, ?_, ?_⟩ <;> rw [hinv] <;>
    cases st.systemState <;> simp [expectedIndicators, allOff]

theorem indicators_follow_state_witness :
    indicatorsFrom allOff
        [Output.ledOnOff Led.LED1 true, Output.ledOnOff Led.LED2 true]
      = expectedIndicators SequenceState.STEP_RIGHT :=
  (indicators_follow_state 0
    [{ tickB := 0, arrivals1 := 2, tickT := 0, arrivals2 := 0 },
     { tickB := 10, arrivals1 := 4, tickT := 10010, arrivals2 := 8 }]
    { systemState := SequenceState.STEP_RIGHT, errorFlags := 0,
      outputs := [Output.ledOnOff Led.LED1 true, Output.ledOnOff Led.LED2 true] }
    (by decide)).1

/-! ## Progress of the validator -/

/-- Each way of ending an iteration from a state that is not terminal leads to a
strictly later state, and from a terminal state to the same state. -/
theorem outcomes_rank (s s1 : SequenceState) (added : List Output)
    (hm : (s1, added) ∈ outcomes s) :
    (isTerminal s = false → rank s < rank s1) ∧ (isTerminal s = true → s1 = s) ∧
    (s = SequenceState.STEP_ON → s1 = SequenceState.STEP_FLAT) := by
  cases s <;> simp only [outcomes, List.mem_cons, List.mem_singleton, Prod.mk.injEq,
      List.not_mem_nil, or_false] at hm
  all_goals
    rcases hm with ⟨rfl, rfl⟩ | ⟨rfl, rfl⟩ | ⟨rfl, rfl⟩ <;> simp [isTerminal, rank]

theorem rank_le_four (s : SequenceState) : rank s ≤ 4 := by
  cases s <;> simp [rank]

theorem step_rank (st : SeqState) (inp : StepInput) (st1 : SeqState)
    (h : sequenceStep st inp = some st1) :
    (isTerminal st.systemState = false → rank st.systemState < rank st1.systemState) ∧
    (isTerminal st.systemState = true → st1.systemState = st.systemState) ∧
    (st.systemState = SequenceState.STEP_ON → st1.systemState = SequenceState.STEP_FLAT) := by
  obtain ⟨added, _, hm⟩ := step_outcome st inp st1 h
  exact outcomes_rank _ _ _ hm

theorem run_rank (st : SeqState) (inps : List StepInput) (st1 : SeqState)
    (h : sequenceRun st inps = some st1) : rank st.systemState ≤ rank st1.systemState := by
  induction inps generalizing st with
  | nil =>
    simp only [sequenceRun, Option.some.injEq] at h
    rw [h]
  | cons inp inps ih =>
    simp only [sequenceRun] at h
    cases hs : sequenceStep st inp with
    | none => rw [hs] at h; cases h
    | some st2 =>
      rw [hs] at h
      have h2 := ih st2 h
      have h1 := step_rank st inp st2 hs
      cases ht : isTerminal st.systemState
      · have := h1.1 ht; omega
      · rw [h1.2.1 ht] at h2; exact h2

theorem sequenceTrace_head (st : SeqState) (inps : List StepInput) :
    ∃ rest, sequenceTrace st inps = st.systemState :: rest := by
  cases inps with
  | nil => exact ⟨[], rfl⟩
  | cons inp inps =>
    simp only [sequenceTrace]
    cases sequenceStep st inp with
    | none => exact ⟨[], rfl⟩
    | some st1 => exact ⟨_, rfl⟩

theorem countChanges_trace (st : SeqState) (inps : List StepInput) :
    countChanges (sequenceTrace st inps) + rank st.systemState ≤ 4 := by
  induction inps generalizing st with
  | nil =>
    have := rank_le_four st.systemState
    simpa [sequenceTrace, countChanges] using this
  | cons inp inps ih =>
    simp only [sequenceTrace]
    cases hs : sequenceStep st inp with
    | none =>
      have := rank_le_four st.systemState
      simpa [countChanges] using this
    | some st1 =>
      obtain ⟨rest, hr⟩ := sequenceTrace_head st1 inps
      have h2 := ih st1
      have h1 := step_rank st inp st1 hs
      rw [hr] at h2
      simp only [hr, countChanges]
      cases ht : isTerminal st.systemState
      · have := h1.1 ht
        split_ifs <;> omega
      · have he := h1.2.1 ht
        rw [he] at h2 ⊢
        rw [if_pos rfl]
        omega

/-- C19: the validator only moves forward.  With the order `rank` (`STEP_ON`,
`STEP_FLAT`, `STEP_RIGHT`, `STEP_UP`, then the terminal states): every iteration
that returns from a state that is not terminal ends in a strictly later state,
for every flag content and input, and from `STEP_ON` in `STEP_FLAT`; no run ends
in an earlier state than it started in; and along any run the state changes at
most four times. -/
theorem validator_moves_forward (st : SeqState) (inp : StepInput) (inps : List StepInput)
    (st1 st2 : SeqState) :
    (sequenceStep st inp = some st1 → isTerminal st.systemState = false →
      rank st.systemState < rank st1.systemState) ∧
    (sequenceStep st inp = some st1 → st.systemState = SequenceState.STEP_ON →
      st1.systemState = SequenceState.STEP_FLAT) ∧
    (sequenceRun st inps = some st2 → rank st.systemState ≤ rank st2.systemState) ∧
    countChanges (sequenceTrace st inps) ≤ 4 := by
  refine ⟨fun h => (step_rank st inp st1 h).1, fun h => (step_rank st inp st1 h).2.2,
    run_rank st inps st2, ?_⟩
  have := countChanges_trace st inps
  omega

theorem validator_moves_forward_witness :
    rank SequenceState.STEP_RIGHT < rank SequenceState.TIME_ERROR ∧
    countChanges (sequenceTrace (sequenceInit 0)
      [{ tickB := 0, arrivals1 := 2, tickT := 0, arrivals2 := 0 },
       { tickB := 10, arrivals1 := 4, tickT := 10010, arrivals2 := 8 },
       { tickB := 10, arrivals1 := 0, tickT := 6010, arrivals2 := 0 },
       { tickB := 0, arrivals1 := 46, tickT := 0, arrivals2 := 46 }]) ≤ 4 :=
  ⟨(validator_moves_forward
      { systemState := SequenceState.STEP_RIGHT, errorFlags := 0, outputs := [] }
      { tickB := 10, arrivals1 := 0, tickT := 6010, arrivals2 := 0 } []
      { systemState := SequenceState.TIME_ERROR, errorFlags := 0,
        outputs := [Output.ledOnOff Led.LED1 false, Output.ledOnOff Led.LED2 false,
          Output.setRGB Colour.RED true, Output.sendMsg "Timing error"] }
      { systemState := SequenceState.STEP_RIGHT, errorFlags := 0, outputs := [] }).1
      (by decide) (by decide),
   (validator_moves_forward (sequenceInit 0)
      { tickB := 0, arrivals1 := 2, tickT := 0, arrivals2 := 0 }
      [{ tickB := 0, arrivals1 := 2, tickT := 0, arrivals2 := 0 },
       { tickB := 10, arrivals1 := 4, tickT := 10010, arrivals2 := 8 },
       { tickB := 10, arrivals1 := 0, tickT := 6010, arrivals2 := 0 },
       { tickB := 0, arrivals1 := 46, tickT := 0, arrivals2 := 46 }]
      (sequenceInit 0) (sequenceInit 0)).2.2.2⟩

/-! ## The two threads together -/

theorem onlyEventBits_iff (x : Nat) :
    OnlyEventBits x ↔ ∀ i, x.testBit i = true → eventBits.testBit i = true := by
  unfold OnlyEventBits
  constructor
  · intro h i hi
    rw [← h, Nat.testBit_and] at hi
    simp only [Bool.and_eq_true] at hi
    exact hi.2
  · intro h
    apply Nat.eq_of_testBit_eq
    intro i
    rw [Nat.testBit_and]
    cases hx : x.testBit i
    · rfl
    · simp [h i hx]

theorem OnlyEventBits_or {a b : Nat} (ha : OnlyEventBits a) (hb : OnlyEventBits b) :
    OnlyEventBits (a ||| b) := by
  rw [onlyEventBits_iff] at *
  intro i hi
  rw [Nat.testBit_or] at hi
  simp only [Bool.or_eq_true] at hi
  rcases hi with hi | hi
  · exact ha i hi
  · exact hb i hi

theorem OnlyEventBits_clearFlags {a : Nat} (m : Nat) (ha : OnlyEventBits a) :
    OnlyEventBits (clearFlags a m) := by
  rw [onlyEventBits_iff] at *
  intro i hi
  unfold clearFlags at hi
  rw [Nat.testBit_xor, Nat.testBit_and] at hi
  cases hx : a.testBit i
  · simp [hx] at hi
  · exact ha i hx

/-- A wait leaves event bits only in the flag object when it finds event bits
only and event bits only arrive. -/
theorem OnlyEventBits_wait (flags mask arr r ef : Nat) (t : Timeout)
    (h : osEventFlagsWait flags mask t arr = some (r, ef))
    (hf : OnlyEventBits flags) (ha : OnlyEventBits arr) : OnlyEventBits ef := by
  unfold osEventFlagsWait at h
  simp only at h
  split_ifs at h
  · cases (Option.some.inj h)
    exact OnlyEventBits_clearFlags _ (OnlyEventBits_or hf ha)
  · cases t with
    | osWaitForever => cases h
    | ticks n =>
      cases (Option.some.inj h)
      exact OnlyEventBits_or hf ha

/-- A classification step leaves event bits only in the flag object. -/
theorem OnlyEventBits_accelStep (st : AccelState) (v : Sample)
    (hf : OnlyEventBits st.errorFlags) : OnlyEventBits (accelStep st v).errorFlags := by
  rw [accelStep_eq]
  apply OnlyEventBits_or hf
  rw [eventsSet_eq]
  cases st.orientationState <;> cases nextOrientation _ v <;> decide

/-- An iteration of the validator leaves event bits only in the flag object. -/
theorem OnlyEventBits_sequenceStep (st : SeqState) (inp : StepInput) (st1 : SeqState)
    (h : sequenceStep st inp = some st1) (hf : OnlyEventBits st.errorFlags)
    (h1 : OnlyEventBits inp.arrivals1) (h2 : OnlyEventBits inp.arrivals2) :
    OnlyEventBits st1.errorFlags := by
  obtain ⟨s, f, o⟩ := st
  simp only at hf
  cases s <;>
    simp only [sequenceStep, ledOnOff, setRGB, sendMsg, LED_ON, LED_OFF, RGB_ON] at h
  all_goals
    repeat' split at h
  all_goals
    first
      | (cases h; done)
      | (cases (Option.some.inj h)
         solve_by_elim [OnlyEventBits_wait])
      | (cases (Option.some.inj h)
         apply OnlyEventBits_wait
         · assumption
         · apply OnlyEventBits_wait
           · assumption
           · exact hf
           · exact h1
         · exact h2)

theorem OnlyEventBits_sysStep (s : System) (a : Action)
    (hs : OnlyEventBits s.seq.errorFlags) (ha : ActionOk a) :
    OnlyEventBits (sysStep s a).seq.errorFlags := by
  cases a with
  | sample v =>
    exact OnlyEventBits_accelStep
      { orientationState := s.orientationState, errorFlags := s.seq.errorFlags } v hs
  | iterate inp =>
    simp only [sysStep]
    cases h : sequenceStep s.seq inp with
    | none => exact hs
    | some seq1 => exact OnlyEventBits_sequenceStep s.seq inp seq1 h hs ha.1 ha.2

theorem OnlyEventBits_sysRun (s : System) (as : List Action)
    (hs : OnlyEventBits s.seq.errorFlags) (h : ∀ a ∈ as, ActionOk a) :
    OnlyEventBits (sysRun s as).seq.errorFlags := by
  induction as generalizing s with
  | nil => exact hs
  | cons a as ih =>
    exact ih (sysStep s a)
      (OnlyEventBits_sysStep s a hs (h a (List.mem_cons_self a as)))
      (fun b hb => h b (List.mem_cons_of_mem a hb))

/-- C16, as stated, fails: with the validator still waiting for `FLAT` in
`STEP_ON`, a sample that enters `RIGHT` followed by a sample that leaves it sets
the `RIGHT` bit and then the `CHANGE` bit, and nothing consumes either: two event
bits are set at once. -/
theorem one_event_bit_fails :
    (sysRun sysInit
        [Action.sample { x := 0, y := -100, z := 0 },
         Action.iterate { tickB := 0, arrivals1 := 0, tickT := 0, arrivals2 := 0 },
         Action.sample { x := 0, y := 0, z := 0 }]).seq.errorFlags
      = MASK RIGHT ||| MASK CHANGE ∧
    (sysRun sysInit
        [Action.sample { x := 0, y := -100, z := 0 },
         Action.iterate { tickB := 0, arrivals1 := 0, tickT := 0, arrivals2 := 0 },
         Action.sample { x := 0, y := 0, z := 0 }]).seq.systemState
      = SequenceState.STEP_ON ∧
    countEventBits (sysRun sysInit
        [Action.sample { x := 0, y := -100, z := 0 },
         Action.iterate { tickB := 0, arrivals1 := 0, tickT := 0, arrivals2 := 0 },
         Action.sample { x := 0, y := 0, z := 0 }]).seq.errorFlags = 2 := by
  decide

/-- C16, amended: in the system of the two threads, started with no flag set,
after every finite sequence of classification steps and validator iterations in
any order (each initial segment of it), the flag object holds no bit other than
`FLAT`, `RIGHT`, `UP` and `CHANGE`; and every classification step adds at most one
of them.  Several of the four can be set at once. -/
theorem event_bits_invariant (as : List Action) (h : ∀ a ∈ as, ActionOk a) (n : Nat) :
    OnlyEventBits (sysRun sysInit (as.take n)).seq.errorFlags ∧
    (∀ (s : OrientationState) (f : Nat) (v : Sample),
      (accelStep { orientationState := s, errorFlags := f } v).errorFlags
        = f ||| eventsSet s v ∧
      countEventBits (eventsSet s v) ≤ 1) := by
  constructor
  · exact OnlyEventBits_sysRun sysInit (as.take n) (by decide)
      (fun a ha => h a (List.mem_of_mem_take ha))
  · intro s f v
    refine ⟨by rw [accelStep_eq], ?_⟩
    rw [eventsSet_eq]
    cases s <;> cases nextOrientation _ v <;> decide

theorem event_bits_invariant_witness :
    (∀ a ∈ [Action.sample { x := 0, y := 0, z := 100 },
            Action.iterate { tickB := 0, arrivals1 := 0, tickT := 0, arrivals2 := 0 },
            Action.sample { x := 0, y := 0, z := 0 },
            Action.iterate { tickB := 0, arrivals1 := 0, tickT := 5000, arrivals2 := 8 }],
      ActionOk a) ∧
    OnlyEventBits (sysRun sysInit
      [Action.sample { x := 0, y := 0, z := 100 },
       Action.iterate { tickB := 0, arrivals1 := 0, tickT := 0, arrivals2 := 0 },
       Action.sample { x := 0, y := 0, z := 0 },
       Action.iterate { tickB := 0, arrivals1 := 0, tickT := 5000, arrivals2 := 8 }]).seq.errorFlags :=
  ⟨by decide,
   (event_bits_invariant
      [Action.sample { x := 0, y := 0, z := 100 },
       Action.iterate { tickB := 0, arrivals1 := 0, tickT := 0, arrivals2 := 0 },
       Action.sample { x := 0, y := 0, z := 0 },
       Action.iterate { tickB := 0, arrivals1 := 0, tickT := 5000, arrivals2 := 8 }]
      (by decide) 4).1⟩

end ActivationSequencer
